import Mathlib

/-!
Verification of the mouth-track kinematic feature extraction and vowel
classification pipeline.

The development shallowly embeds the JavaScript sources:
* `Smoother` (src/module/utils/Smoother.js, exponential moving average);
* `TemporalFeatureExtractor` (temporal buffer: velocity over the two most
  recent frames);
* `CalibrationManager` (timed sampling session producing a `Baseline`);
* `DataProcessor` (geometric mouth metrics over landmark sets);
* `VowelClassifier` (input gate, closed-mouth gate, per-vowel scoring,
  probability and majority smoothing, confidence gate).

JavaScript numbers are modelled as exact arithmetic: `ℚ` for the components
that use only field operations, `ℝ` for the geometry and scoring code that
calls `Math.sqrt` / `Math.exp` / `Math.atan2` / `Math.PI`.  JavaScript
`undefined` / non-numeric values are modelled with `Option`; the `x || d`
idiom on numbers is modelled by its exact semantics (`0` and `undefined` are
falsy).  Stateful classes are modelled by explicit state passing.
-/

/-! ### Shared list helpers

`Math.min(...values)` / `Math.max(...values)` over a spread non-empty array,
and the `Infinity`-seeded running-minimum loops, are modelled by folds.  The
lemmas below characterise those folds. -/

/-- Fold modelling `Math.min(...values)` on a non-empty array; the source
guards emptiness separately and maps `[]` to `0`. -/
def jsMinList {α : Type} [LinearOrder α] [Zero α] : List α → α
  | [] => 0
  | x :: xs => xs.foldl min x

/-- Fold modelling `Math.max(...values)` on a non-empty array, `0` on `[]`. -/
def jsMaxList {α : Type} [LinearOrder α] [Zero α] : List α → α
  | [] => 0
  | x :: xs => xs.foldl max x

/-! ### Smoother (src/module/utils/Smoother.js, class `Smoother`)

Exponential moving average over named point keys.  A point whose `x` is not
a number (or a missing point) is modelled as `none` and passed through
unchanged; an absent `z` coordinate is `none` and `z || 0` is its
`Option.getD 0`. -/

/-- Coordinate record `{x, y, z}`; `z` may be absent. -/
structure SPoint where
  x : ℚ
  y : ℚ
  z : Option ℚ
deriving DecidableEq

/-- State of one `Smoother` instance: the smoothing factor and the
`previousValues` map from keys to the last emitted point. -/
structure SmootherState where
  smoothingFactor : ℚ
  previousValues : String → Option SPoint

/-- Fresh smoother, as built by `new Smoother(factor)` (and after `reset()`,
which clears `previousValues`). -/
def SmootherState.init (factor : ℚ) : SmootherState :=
  { smoothingFactor := factor, previousValues := fun _ => none }

/-- The `smooth(key, newValue)` method.  Returns the updated state together
with the returned point. -/
def SmootherState.smooth (s : SmootherState) (key : String) (newValue : Option SPoint) :
    SmootherState × Option SPoint :=
  match newValue with
  | none => (s, none)
  | some nv =>
    match s.previousValues key with
    | none =>
      ({ s with previousValues := Function.update s.previousValues key (some nv) }, some nv)
    | some prev =>
      let f := s.smoothingFactor
      let smoothed : SPoint :=
        { x := prev.x * f + nv.x * (1 - f)
          y := prev.y * f + nv.y * (1 - f)
          z := some ((prev.z.getD 0) * f + (nv.z.getD 0) * (1 - f)) }
      ({ s with previousValues := Function.update s.previousValues key (some smoothed) },
        some smoothed)

/-! ### TemporalFeatureExtractor (src/unnamed/part_000..., `getVelocity`)

The temporal buffer holds `{timestamp, metrics}` frames; a frame's metrics
are modelled as a lookup from feature names to an optional numeric value
(`_getFeatureValue` returns `null` for an absent or non-numeric feature). -/

/-- One buffered frame: a millisecond timestamp and the frame's metrics. -/
structure TFrame where
  timestamp : ℚ
  metrics : String → Option ℚ

/-- State of one `TemporalFeatureExtractor`: the history buffer (most recent
frame last, as pushed by `addFrame`). -/
structure TemporalState where
  history : List TFrame

/-- The `getVelocity(featureName)` method: value difference between the two
most recent frames divided by their time difference in seconds; `0` with
fewer than two frames, a missing value, or a zero time delta. -/
def TemporalState.getVelocity (st : TemporalState) (featureName : String) : ℚ :=
  if st.history.length < 2 then 0
  else
    match st.history[st.history.length - 1]?, st.history[st.history.length - 2]? with
    | some current, some previous =>
      match current.metrics featureName, previous.metrics featureName with
      | some currentValue, some previousValue =>
        let timeDelta := current.timestamp - previous.timestamp
        if timeDelta = 0 then 0
        else (currentValue - previousValue) / (timeDelta / 1000)
      | _, _ => 0
    | _, _ => 0

/-! ### CalibrationManager (src/module/utils/Smoother.js, class
`CalibrationManager`)

The sampling session is driven by a `setInterval` timer.  We model a session
run as a fold over a list of events: timer ticks (carrying the wall-clock
time and the value `getMetrics()` returns at that tick) and `stopCalibration`
calls.  The promise's settlement is the `outcome` field, set at most once.
Mirroring the source, `stopCalibration` clears `isCalibrating` and the
sample list but does NOT clear the interval timer (its handle is local to
`startCalibration`), so ticks keep firing after a stop. -/

/-- Metrics object polled by the calibration sampling loop. -/
structure CalibMetrics where
  openness : Option ℚ
  width : Option ℚ
  aspectRatio : Option ℚ
  area : Option ℚ
  upperLipThickness : Option ℚ
  lowerLipThickness : Option ℚ
deriving DecidableEq

/-- JavaScript truthiness of an optional number: `undefined` and `0` are
falsy. -/
def jsTruthy : Option ℚ → Bool
  | none => false
  | some v => v ≠ 0

/-- One recorded calibration sample (shape pushed by the sampling loop). -/
structure CalibSample where
  timestamp : ℚ
  openness : ℚ
  width : ℚ
  aspectRatio : Option ℚ
  area : ℚ
  upperLipThickness : ℚ
  lowerLipThickness : ℚ
deriving DecidableEq

/-- Aggregated baseline produced by `_calculateBaseline`. -/
structure CalibBaseline where
  openness : ℚ
  width : ℚ
  aspectRatio : ℚ
  area : ℚ
  lipThickness : ℚ
  opennessMax : ℚ
  widthMax : ℚ
  timestamp : ℚ
deriving DecidableEq

/-- Average helper `calculateAvg` from `_calculateBaseline`. -/
def calcAvgQ (values : List ℚ) : ℚ :=
  if values.length > 0 then values.sum / values.length else 0

/-- The `_calculateBaseline` method over the recorded samples: per field,
drop the non-positive values (`filter(v => v > 0)`; an `undefined`
aspect ratio also fails `v > 0`), then take min/avg/max, with `0` when the
filtered list is empty.  Returns `none` on an empty sample list. -/
def calculateBaseline (samples : List CalibSample) (now : ℚ) : Option CalibBaseline :=
  if samples.isEmpty then none
  else
    let opennessValues := (samples.map (·.openness)).filter (fun v => 0 < v)
    let widthValues := (samples.map (·.width)).filter (fun v => 0 < v)
    let aspectRatioValues :=
      samples.filterMap (fun s => s.aspectRatio.bind (fun v => if 0 < v then some v else none))
    let areaValues := (samples.map (·.area)).filter (fun v => 0 < v)
    let lipThicknessValues :=
      (samples.map (fun s => s.upperLipThickness + s.lowerLipThickness)).filter (fun v => 0 < v)
    some
      { openness := jsMinList opennessValues
        width := jsMinList widthValues
        aspectRatio := calcAvgQ aspectRatioValues
        area := jsMinList areaValues
        lipThickness := jsMinList lipThicknessValues
        opennessMax := jsMaxList opennessValues
        widthMax := jsMaxList widthValues
        timestamp := now }

/-- Configuration of a `CalibrationManager` after its constructor applied
the `||`-defaults: duration 3000 ms, sample interval 100 ms, at least 10
samples. -/
structure CalibConfig where
  duration : ℚ
  sampleInterval : ℚ
  minSamples : ℕ
deriving DecidableEq

instance exceptDecEq {ε α : Type} [DecidableEq ε] [DecidableEq α] : DecidableEq (Except ε α)
  | Except.error a, Except.error b =>
    if h : a = b then isTrue (by rw [h]) else isFalse (by intro hh; cases hh; exact h rfl)
  | Except.error _, Except.ok _ => isFalse (by intro h; cases h)
  | Except.ok _, Except.error _ => isFalse (by intro h; cases h)
  | Except.ok a, Except.ok b =>
    if h : a = b then isTrue (by rw [h]) else isFalse (by intro hh; cases hh; exact h rfl)

/-- Mutable state of a `CalibrationManager` plus the session's promise
settlement (`outcome`) and whether the interval timer is still scheduled. -/
structure CalibState where
  isCalibrating : Bool
  samples : List CalibSample
  baseline : Option CalibBaseline
  timerActive : Bool
  outcome : Option (Except String (Option CalibBaseline))
deriving DecidableEq

/-- Error message thrown by `startCalibration` while a session is active. -/
def calibrationActiveError : String := "calibration is already running"

/-- Error message used by `_completeCalibration` when too few samples were
collected. -/
def insufficientSamplesError : String := "insufficient samples"

/-- The `startCalibration(getMetrics)` entry: throws when a session is
already active, otherwise arms the session (clearing the sample list,
scheduling the timer, leaving the promise pending) and fixes
`endTime = startTime + duration`.  Returns the armed state and `endTime`. -/
def startCalibration (cfg : CalibConfig) (st : CalibState) (startTime : ℚ) :
    Except String (CalibState × ℚ) :=
  if st.isCalibrating then Except.error calibrationActiveError
  else
    Except.ok
      ({ st with isCalibrating := true, samples := [], timerActive := true, outcome := none },
        startTime + cfg.duration)

/-- The `_completeCalibration(resolve, reject)` method: reject when fewer
than `minSamples` samples were recorded (leaving `baseline` untouched),
otherwise install the aggregated baseline and resolve with it. -/
def completeCalibration (cfg : CalibConfig) (st : CalibState) (now : ℚ) : CalibState :=
  if st.samples.length < cfg.minSamples then
    { st with isCalibrating := false, outcome := some (Except.error insufficientSamplesError) }
  else
    let b := calculateBaseline st.samples now
    { st with isCalibrating := false, baseline := b, outcome := some (Except.ok b) }

/-- Session events: an interval tick (with the wall-clock time and the
polled metrics) or a `stopCalibration()` call. -/
inductive CalibEvent where
  | tick (now : ℚ) (metrics : Option CalibMetrics)
  | stop

/-- Body of the `setInterval` callback for a tick whose `getMetrics()`
returned an object: skip frames without truthy `openness`/`width`, push a
sample otherwise, and on `Date.now() >= endTime` clear the interval and
complete. -/
def calibTickSample (cfg : CalibConfig) (endTime : ℚ) (st : CalibState) (now : ℚ)
    (metrics : CalibMetrics) : CalibState :=
  if jsTruthy metrics.openness = false ∨ jsTruthy metrics.width = false then st
  else
    let sample : CalibSample :=
      { timestamp := now
        openness := metrics.openness.getD 0
        width := metrics.width.getD 0
        aspectRatio := metrics.aspectRatio
        area := metrics.area.getD 0
        upperLipThickness := metrics.upperLipThickness.getD 0
        lowerLipThickness := metrics.lowerLipThickness.getD 0 }
    let st1 := { st with samples := st.samples ++ [sample] }
    if endTime ≤ now then completeCalibration cfg { st1 with timerActive := false } now
    else st1

/-- One step of the session.  A tick runs the `setInterval` body when the
timer is still scheduled; `stop` mirrors `stopCalibration()`: it resets
`isCalibrating` and discards the samples but does not clear the timer. -/
def calibStep (cfg : CalibConfig) (endTime : ℚ) (st : CalibState) (ev : CalibEvent) :
    CalibState :=
  match ev with
  | CalibEvent.stop => { st with isCalibrating := false, samples := [] }
  | CalibEvent.tick now m =>
    if st.timerActive = false then st
    else
      match m with
      | none => st
      | some metrics => calibTickSample cfg endTime st now metrics

/-- Run a whole session: fold the events over the armed state. -/
def runCalibration (cfg : CalibConfig) (endTime : ℚ) (st : CalibState)
    (events : List CalibEvent) : CalibState :=
  events.foldl (calibStep cfg endTime) st

/-- The state right after `startCalibration` armed a session, when the
manager previously held baseline `b0`. -/
def freshSession (b0 : Option CalibBaseline) : CalibState :=
  { isCalibrating := true, samples := [], baseline := b0, timerActive := true, outcome := none }

/-! ### DataProcessor (src/module/core/DataProcessor.js)

Geometric mouth metrics.  `Math.sqrt`, `Math.PI` and `Math.atan2` force the
model into `ℝ`; `Math.atan2(y, x)` is the argument of the complex number
`x + i·y`.  Landmarks may be missing (`Option`); absent `z` coordinates are
already folded to `0` by the `|| 0` at every use site, so points carry a
plain `z : ℝ`. -/

noncomputable section

/-- A 3D point `{x, y, z}` (absent `z` reads as `0` through `|| 0`). -/
structure Pt where
  x : ℝ
  y : ℝ
  z : ℝ

/-- An `{index, point}` landmark as delivered by the detector. -/
structure IndexedLandmark where
  index : ℕ
  point : Pt

/-- The basic 8-point mouth landmark record (fields may be absent). -/
structure BasicLandmarks where
  topOuter : Option Pt
  bottomOuter : Option Pt
  leftEnd : Option Pt
  rightEnd : Option Pt

/-- `DataProcessor.distance`: euclidean 3D distance (0 on a missing point,
handled by callers through `Option`). -/
def jsDistance (p1 p2 : Pt) : ℝ :=
  let dx := p2.x - p1.x
  let dy := p2.y - p1.y
  let dz := p2.z - p1.z
  Real.sqrt (dx * dx + dy * dy + dz * dz)

/-- `DataProcessor._validateContourLandmarks`: non-null and non-empty. -/
def validateContourLandmarks (contourLandmarks : Option (List IndexedLandmark)) : Bool :=
  match contourLandmarks with
  | none => false
  | some l => l.length > 0

/-- `DataProcessor._filterLandmarksByIndices`. -/
def filterLandmarksByIndices (contourLandmarks : Option (List IndexedLandmark))
    (indices : List ℕ) : List Pt :=
  if validateContourLandmarks contourLandmarks = false then []
  else ((contourLandmarks.getD []).filter (fun lm => lm.index ∈ indices)).map (·.point)

/-- `DataProcessor.calculateOpenness`. -/
def calculateOpenness (mouthLandmarks : Option BasicLandmarks) : ℝ :=
  match mouthLandmarks with
  | none => 0
  | some ml =>
    match ml.topOuter, ml.bottomOuter with
    | some t, some b => jsDistance t b
    | _, _ => 0

/-- `DataProcessor.calculateWidth`. -/
def calculateWidth (mouthLandmarks : Option BasicLandmarks) : ℝ :=
  match mouthLandmarks with
  | none => 0
  | some ml =>
    match ml.leftEnd, ml.rightEnd with
    | some l, some r => jsDistance l r
    | _, _ => 0

/-- `DataProcessor.calculateArea`: ellipse approximation `π·(w/2)·(o/2)`. -/
def calculateArea (mouthLandmarks : Option BasicLandmarks) : ℝ :=
  let width := calculateWidth mouthLandmarks
  let openness := calculateOpenness mouthLandmarks
  Real.pi * (width / 2) * (openness / 2)

/-- `DataProcessor.calculateAspectRatio`: `width / (openness + 0.0001)`. -/
def calculateAspectRatio (mouthLandmarks : Option BasicLandmarks) : ℝ :=
  let width := calculateWidth mouthLandmarks
  let openness := calculateOpenness mouthLandmarks
  width / (openness + 0.0001)

/-- `DataProcessor.calculateAveragePoint`: `none` on an empty array,
otherwise the coordinate-wise mean. -/
def calculateAveragePoint (points : List Pt) : Option Pt :=
  if points.length = 0 then none
  else
    let s := points.foldl
      (fun acc p => { x := acc.x + p.x, y := acc.y + p.y, z := acc.z + p.z : Pt })
      { x := 0, y := 0, z := 0 }
    some { x := s.x / points.length, y := s.y / points.length, z := s.z / points.length }

/-- Snapshot of the mouth metrics record assembled by
`DataProcessor.calculateAllMetrics` (the fields that function sets). -/
structure MouthCornerAngle where
  left : ℝ
  right : ℝ
  average : ℝ

/-- The `{upper, lower, average}` lip curvature record. -/
structure LipCurvature where
  upper : ℝ
  lower : ℝ
  average : ℝ

/-- Metrics record produced by `calculateAllMetrics` (and, for its first
four fields, by `calculateMetricsFromContour`). -/
structure MouthMetrics where
  openness : ℝ
  width : ℝ
  area : ℝ
  aspectRatio : ℝ
  upperLipThickness : ℝ
  lowerLipThickness : ℝ
  mouthCornerAngle : MouthCornerAngle
  lipCurvature : LipCurvature
  circularity : ℝ
  lipProtrusion : ℝ
  scale : ℝ

/-- `Math.atan2(y, x)`, the argument of the complex number `x + i·y`. -/
def jsAtan2 (y x : ℝ) : ℝ := Complex.arg ⟨x, y⟩

/-- `DataProcessor.calculateUpperLipThickness`: mean over the outer
upper-lip points of the distance to the nearest inner upper-lip point. -/
def calculateUpperLipThickness (contourLandmarks : Option (List IndexedLandmark)) : ℝ :=
  if validateContourLandmarks contourLandmarks = false then 0
  else
    let topOuterPoints := filterLandmarksByIndices contourLandmarks [12, 13, 14, 15, 16, 17, 18]
    let topInnerPoints := filterLandmarksByIndices contourLandmarks [78, 79, 80, 81, 82]
    if topOuterPoints.length = 0 ∨ topInnerPoints.length = 0 then 0
    else
      let distances := topOuterPoints.map
        (fun outerPoint => jsMinList (topInnerPoints.map (fun innerPoint => jsDistance outerPoint innerPoint)))
      distances.sum / distances.length

/-- `DataProcessor.calculateLowerLipThickness`. -/
def calculateLowerLipThickness (contourLandmarks : Option (List IndexedLandmark)) : ℝ :=
  if validateContourLandmarks contourLandmarks = false then 0
  else
    let bottomOuterPoints := filterLandmarksByIndices contourLandmarks [14, 15, 16, 17, 18]
    let bottomInnerPoints := filterLandmarksByIndices contourLandmarks [308, 309, 310, 311, 312]
    if bottomOuterPoints.length = 0 ∨ bottomInnerPoints.length = 0 then 0
    else
      let distances := bottomOuterPoints.map
        (fun outerPoint => jsMinList (bottomInnerPoints.map (fun innerPoint => jsDistance outerPoint innerPoint)))
      distances.sum / distances.length

/-- `topOuter?.x || 0.5` as used by `calculateMouthCornerAngle`. -/
def topOuterXOrHalf (ml : BasicLandmarks) : ℝ :=
  match ml.topOuter with
  | some t => if t.x = 0 then 0.5 else t.x
  | none => 0.5

/-- `DataProcessor.calculateMouthCornerAngle` (the contour argument is
unused by the source body). -/
def calculateMouthCornerAngle (mouthLandmarks : Option BasicLandmarks) : MouthCornerAngle :=
  match mouthLandmarks with
  | none => { left := 0, right := 0, average := 0 }
  | some ml =>
    match ml.leftEnd, ml.rightEnd with
    | some leftEnd, some rightEnd =>
      let centerY :=
        match ml.topOuter, ml.bottomOuter with
        | some t, some b => (t.y + b.y) / 2
        | _, _ => 0.5
      let leftAngle := jsAtan2 (centerY - leftEnd.y) (leftEnd.x - topOuterXOrHalf ml)
      let rightAngle := jsAtan2 (centerY - rightEnd.y) (topOuterXOrHalf ml - rightEnd.x)
      { left := leftAngle, right := rightAngle, average := (leftAngle + rightAngle) / 2 }
    | _, _ => { left := 0, right := 0, average := 0 }

/-- The inner `calculateCurvature` helper of `calculateLipCurvature`:
maximum perpendicular distance from the first-to-last chord to an interior
point, divided by the chord length. -/
def calculateCurvature (points : List Pt) : ℝ :=
  if points.length < 3 then 0
  else
    match points with
    | [] => 0
    | start :: _ =>
      let e := points.getLast?.getD start
      let lineLength := jsDistance start e
      if lineLength = 0 then 0
      else
        let interior := (points.drop 1).dropLast
        let perp := fun (p : Pt) =>
          |(e.y - start.y) * p.x - (e.x - start.x) * p.y + e.x * start.y - e.y * start.x| / lineLength
        (interior.map perp).foldl max 0

/-- `DataProcessor.calculateLipCurvature`. -/
def calculateLipCurvature (contourLandmarks : Option (List IndexedLandmark)) : LipCurvature :=
  if validateContourLandmarks contourLandmarks = false then
    { upper := 0, lower := 0, average := 0 }
  else
    let topOuterPoints := filterLandmarksByIndices contourLandmarks [12, 13, 14, 15, 16, 17, 18]
    let bottomOuterPoints := filterLandmarksByIndices contourLandmarks [14, 15, 16, 17, 18]
    let upperCurvature := calculateCurvature topOuterPoints
    let lowerCurvature := calculateCurvature bottomOuterPoints
    { upper := upperCurvature, lower := lowerCurvature
      average := (upperCurvature + lowerCurvature) / 2 }

/-- `DataProcessor.calculateCircularity`: isoperimetric ratio
`4π·area / perimeter²` over the closed contour polygon, clamped to `[0,1]`;
`0` on an invalid contour, zero area or zero perimeter. -/
def calculateCircularity (area : ℝ) (contourLandmarks : Option (List IndexedLandmark)) : ℝ :=
  if validateContourLandmarks contourLandmarks = false ∨ area = 0 then 0
  else
    let points := (contourLandmarks.getD []).map (·.point)
    let perimeter := ((points.zip (points.rotate 1)).map (fun pq => jsDistance pq.1 pq.2)).sum
    if perimeter = 0 then 0
    else
      let circularity := (4 * Real.pi * area) / (perimeter * perimeter)
      min (max circularity 0) 1

/-- `DataProcessor.calculateLipProtrusion`: mean `z` of the outer upper-lip
point group, floored at 0. -/
def calculateLipProtrusion (allMouthLandmarksExtended : Option (List IndexedLandmark)) : ℝ :=
  match allMouthLandmarksExtended with
  | none => 0
  | some l =>
    if l.length = 0 then 0
    else
      let outerPoints := (l.filter (fun lm => lm.index ∈ [12, 13, 14, 15, 16, 17, 18])).map (·.point)
      if outerPoints.length = 0 then 0
      else
        let avgZ := (outerPoints.map (·.z)).sum / outerPoints.length
        max 0 avgZ

/-- `DataProcessor.calculateFaceScale`: inter-eye-outer-corner distance,
falling back to nose-bridge-to-chin distance, falling back to `1`. -/
def calculateFaceScale (allFaceLandmarks : Option (List IndexedLandmark)) : ℝ :=
  match allFaceLandmarks with
  | none => 1
  | some l =>
    if l.length = 0 then 1
    else
      let getPoint := fun (index : ℕ) => (l.find? (fun lm => lm.index = index)).map (·.point)
      let leftEyeOuter := getPoint 33
      let rightEyeOuter := getPoint 263
      let noseBridge := getPoint 1
      let chin := getPoint 152
      let eyeDistance :=
        match leftEyeOuter, rightEyeOuter with
        | some a, some b => jsDistance a b
        | _, _ => 0
      let faceHeight :=
        match noseBridge, chin with
        | some a, some b => jsDistance a b
        | _, _ => 0
      let primary := if eyeDistance ≠ 0 then eyeDistance else if faceHeight ≠ 0 then faceHeight else 1
      if primary ≠ 0 then primary else 1

/-- `DataProcessor._applyScaleNormalization`: divide the distance-valued
fields by the scale and the area by its square; `aspectRatio`,
`mouthCornerAngle`, `lipCurvature` and `circularity` are left untouched. -/
def applyScaleNormalization (metrics : MouthMetrics) (scale : ℝ) : MouthMetrics :=
  let safeScale := if 0 < scale then scale else 1
  { metrics with
      scale := safeScale
      openness := metrics.openness / safeScale
      width := metrics.width / safeScale
      area := metrics.area / (safeScale * safeScale)
      upperLipThickness := metrics.upperLipThickness / safeScale
      lowerLipThickness := metrics.lowerLipThickness / safeScale
      lipProtrusion := metrics.lipProtrusion / safeScale }

/-- Core of the basic-landmark path of `calculateAllMetrics` (the `else`
branch building `{openness, width, area, aspectRatio}` from the 8-point
set), with the remaining fields at the values the augmentation step gives
them when no contour / extended set is present. -/
def metricsFromBasic (mouthLandmarks : Option BasicLandmarks) : MouthMetrics :=
  { openness := calculateOpenness mouthLandmarks
    width := calculateWidth mouthLandmarks
    area := calculateArea mouthLandmarks
    aspectRatio := calculateAspectRatio mouthLandmarks
    upperLipThickness := 0
    lowerLipThickness := 0
    mouthCornerAngle := { left := 0, right := 0, average := 0 }
    lipCurvature := { upper := 0, lower := 0, average := 0 }
    circularity := 0
    lipProtrusion := 0
    scale := 1 }

/-- `DataProcessor.calculateMetricsFromContour`: averaged anchors from the
fixed index groups, with per-anchor fallback to the basic set; returns the
four core fields.  On an invalid contour the source falls back to
`calculateAllMetrics(basicLandmarks)` (a dead branch in the composition,
since `calculateAllMetrics` only calls in with a validated contour): that
call reduces to the normalized basic metrics with scale 1, whose core
fields are those of `metricsFromBasic`. -/
def calculateMetricsFromContour (contourLandmarks : Option (List IndexedLandmark))
    (basicLandmarks : Option BasicLandmarks) : MouthMetrics :=
  if validateContourLandmarks contourLandmarks = false then
    applyScaleNormalization (metricsFromBasic basicLandmarks) 1
  else
    let topOuterPoints := filterLandmarksByIndices contourLandmarks [12, 13, 14, 15, 16, 17, 18]
    let bottomOuterPoints := filterLandmarksByIndices contourLandmarks [14, 15, 16, 17, 18]
    let cornerPoints := filterLandmarksByIndices contourLandmarks [61, 291]
    let basicPt := fun (sel : BasicLandmarks → Option Pt) =>
      match basicLandmarks with
      | some bl => sel bl
      | none => none
    let topOuterAvg :=
      match calculateAveragePoint topOuterPoints with
      | some p => some p
      | none => basicPt (·.topOuter)
    let bottomOuterAvg :=
      match calculateAveragePoint bottomOuterPoints with
      | some p => some p
      | none => basicPt (·.bottomOuter)
    let leftCorner :=
      match cornerPoints.find? (fun p => p.x < 0.5) with
      | some p => some p
      | none => basicPt (·.leftEnd)
    let rightCorner :=
      match cornerPoints.find? (fun p => 0.5 ≤ p.x) with
      | some p => some p
      | none => basicPt (·.rightEnd)
    let openness :=
      match topOuterAvg, bottomOuterAvg with
      | some t, some b => jsDistance t b
      | _, _ => calculateOpenness basicLandmarks
    let width :=
      match leftCorner, rightCorner with
      | some l, some r => jsDistance l r
      | _, _ => calculateWidth basicLandmarks
    let area := calculateArea (some
      { topOuter := topOuterAvg, bottomOuter := bottomOuterAvg
        leftEnd := leftCorner, rightEnd := rightCorner })
    let aspectRatio := width / (openness + 0.0001)
    { metricsFromBasic none with
        openness := openness, width := width, area := area, aspectRatio := aspectRatio }

/-- `DataProcessor.calculateAllMetrics`: core metrics from the contour (or
the basic set), augmentation with lip thickness / corner angle / curvature /
circularity / protrusion, then optional scale normalization (the
`applyNormalization = false` caller still records the scale). -/
def calculateAllMetrics (mouthLandmarks : Option BasicLandmarks)
    (contourLandmarks : Option (List IndexedLandmark))
    (allMouthLandmarksExtended : Option (List IndexedLandmark))
    (allFaceLandmarks : Option (List IndexedLandmark))
    (applyNormalization : Bool) : MouthMetrics :=
  let hasContour := validateContourLandmarks contourLandmarks
  let core :=
    if hasContour then calculateMetricsFromContour contourLandmarks mouthLandmarks
    else metricsFromBasic mouthLandmarks
  let augmented :=
    if hasContour then
      { core with
          upperLipThickness := calculateUpperLipThickness contourLandmarks
          lowerLipThickness := calculateLowerLipThickness contourLandmarks
          mouthCornerAngle := calculateMouthCornerAngle mouthLandmarks
          lipCurvature := calculateLipCurvature contourLandmarks
          circularity := calculateCircularity core.area contourLandmarks }
    else
      { core with
          upperLipThickness := 0
          lowerLipThickness := 0
          mouthCornerAngle := { left := 0, right := 0, average := 0 }
          lipCurvature := { upper := 0, lower := 0, average := 0 }
          circularity := 0 }
  let withProtrusion :=
    { augmented with
        lipProtrusion :=
          if validateContourLandmarks allMouthLandmarksExtended then
            calculateLipProtrusion allMouthLandmarksExtended
          else 0 }
  let scale := calculateFaceScale allFaceLandmarks
  if applyNormalization then applyScaleNormalization withProtrusion scale
  else { withProtrusion with scale := scale }

/-- `DataProcessor.calculateMouthSymmetry`: for each contour point left of
the corner midpoint, distance from its mirror image to the nearest
right-side point; returns `max(0, 1 - mean·10)` (0 on degenerate input). -/
def calculateMouthSymmetry (contourLandmarks : Option (List IndexedLandmark)) : ℝ :=
  if validateContourLandmarks contourLandmarks = false then 0
  else
    let l := contourLandmarks.getD []
    match l.find? (fun lm => lm.index = 61), l.find? (fun lm => lm.index = 291) with
    | some leftCorner, some rightCorner =>
      let centerX := (leftCorner.point.x + rightCorner.point.x) / 2
      let leftPoints := l.filter (fun lm => lm.point.x < centerX)
      let rightPoints := l.filter (fun lm => centerX < lm.point.x)
      if leftPoints.length = 0 ∨ rightPoints.length = 0 then 0
      else
        let mirrorDist := fun (lp : IndexedLandmark) =>
          let mirrorX := 2 * centerX - lp.point.x
          let mirrorY := lp.point.y
          jsMinList (rightPoints.map (fun rp =>
            Real.sqrt ((rp.point.x - mirrorX) ^ 2 + (rp.point.y - mirrorY) ^ 2)))
        let totalDiff := (leftPoints.map mirrorDist).sum
        let count := leftPoints.length
        if 0 < count then max 0 (1 - (totalDiff / count) * 10) else 0
    | _, _ => 0

/-- The radial-distance scan of `calculateMouthEllipticity`: running
maximum over all distances and running minimum over the strictly positive
ones (`minDist` starts at `Infinity`, modelled as `none`). -/
def ellipFold : List ℝ → ℝ × Option ℝ → ℝ × Option ℝ
  | [], acc => acc
  | dist :: rest, (maxDist, minDist) =>
    let maxDist2 := if maxDist < dist then dist else maxDist
    let minDist2 :=
      match minDist with
      | none => if 0 < dist then some dist else none
      | some m => if dist < m ∧ 0 < dist then some dist else some m
    ellipFold rest (maxDist2, minDist2)

/-- `DataProcessor.calculateMouthEllipticity`: ratio of maximum to minimum
radial distance from the centroid; `1.0` on fewer than three points, a
missing centroid, or a degenerate scan.  A scan that never finds a positive
distance leaves `minDist` at `Infinity`, where the source's
`maxDist / minDist` evaluates to `0`. -/
def calculateMouthEllipticity (contourLandmarks : Option (List IndexedLandmark)) : ℝ :=
  if validateContourLandmarks contourLandmarks = false ∨ (contourLandmarks.getD []).length < 3 then 1
  else
    let points := (contourLandmarks.getD []).map (·.point)
    match calculateAveragePoint points with
    | none => 1
    | some center =>
      let dists := points.map (fun p =>
        let dx := p.x - center.x
        let dy := p.y - center.y
        Real.sqrt (dx * dx + dy * dy))
      match ellipFold dists (0, none) with
      | (maxDist, some minDist) => if minDist = 0 ∨ maxDist = 0 then 1 else maxDist / minDist
      | (maxDist, none) => if maxDist = 0 then 1 else 0

/-! ### VowelClassifier (src/module/utils/Smoother.js, class
`VowelClassifier`, the version with penalty multipliers, probability EMA
and majority-vote smoothing)

The classifier is modelled at its default configuration: default threshold
table, empty `calibrationProfiles` (so `_getOptimal` / `_getSigma` return
their fallbacks), default label map.  The optional `onVowelDetected`
callback is modelled by a flag plus an invocation count returned by
`classify`. -/

/-- The six classified mouth shapes. -/
inductive Vowel where
  | a | i | u | e | o | closed
deriving DecidableEq

/-- Japanese display labels (the constructor's default `labelMap`). -/
def labelMap : Vowel → String
  | Vowel.a => "あ"
  | Vowel.i => "い"
  | Vowel.u => "う"
  | Vowel.e => "え"
  | Vowel.o => "お"
  | Vowel.closed => "閉口"

/-- Metrics record consumed by `classify`; every field may be absent or
non-numeric (`none`). -/
structure VMetrics where
  openness : Option ℝ
  width : Option ℝ
  aspectRatio : Option ℝ
  area : Option ℝ
  circularity : Option ℝ
  scale : Option ℝ
  jawMovement : Option ℝ
  lipProtrusion : Option ℝ
  upperLipThickness : Option ℝ
  lowerLipThickness : Option ℝ
  mouthCornerAngleAverage : Option ℝ

/-- Per-vowel raw scores (`_calculateScores` result). -/
structure Scores where
  a : ℝ
  i : ℝ
  u : ℝ
  e : ℝ
  o : ℝ

/-- Probability map over the six classes; the JavaScript objects that lack a
`closed` key read `0` for it at every use site, so `closed` is stored as
`0` there. -/
structure Probs where
  a : ℝ
  i : ℝ
  u : ℝ
  e : ℝ
  o : ℝ
  closed : ℝ

/-- Field lookup on a probability map. -/
def Probs.get (p : Probs) : Vowel → ℝ
  | Vowel.a => p.a
  | Vowel.i => p.i
  | Vowel.u => p.u
  | Vowel.e => p.e
  | Vowel.o => p.o
  | Vowel.closed => p.closed

/-- The all-zero probability map (`_getEmptyProbabilities`). -/
def emptyProbs : Probs := { a := 0, i := 0, u := 0, e := 0, o := 0, closed := 0 }

/-- Baseline as consumed by the classifier (`baseline.openness || 0.01`). -/
structure VBaseline where
  openness : ℝ

/-- Temporal features consumed by `_transitionPenalty`
(`temporalFeatures.openness?.velocity` etc.). -/
structure TemporalFeatures where
  opennessVelocity : Option ℝ
  opennessAcceleration : Option ℝ
  widthVelocity : Option ℝ
  widthAcceleration : Option ℝ

/-- State and configuration of a `VowelClassifier` instance. -/
structure VCState where
  baseline : Option VBaseline
  hasCallback : Bool
  historyLength : ℕ
  smoothingAlpha : ℝ
  vowelHistory : List (Vowel × ℝ)
  probabilityEma : Option Probs

/-- The metrics snapshot embedded in a non-empty result by
`_createResult`. -/
structure MetricsEcho where
  openness : Option ℝ
  width : Option ℝ
  aspectRatio : Option ℝ
  area : Option ℝ
  circularity : Option ℝ
  scale : Option ℝ

/-- A classification result.  `scores` is `none` where the source leaves
the default `{}` (closed and empty results); `metricsEcho`/`displayVowel`
are `none` exactly on the empty result, which carries neither. -/
structure VResult where
  vowel : Option Vowel
  confidence : ℝ
  probabilities : Probs
  scores : Option Scores
  metricsEcho : Option MetricsEcho
  displayVowel : Option String

/-- `_hasRequiredMetrics`: the argument is an object with numeric
`openness`, `width` and `aspectRatio`. -/
def hasRequiredMetrics : Option VMetrics → Bool
  | none => false
  | some m => m.openness.isSome && m.width.isSome && m.aspectRatio.isSome

/-- `_gaussianScore`: `exp(-(value-optimal)² / (2·(sigma² || 1e-6)))`. -/
def gaussianScore (value optimal sigma : ℝ) : ℝ :=
  let diff := value - optimal
  let variance := if sigma * sigma = 0 then 1e-6 else sigma * sigma
  Real.exp (-(diff * diff) / (2 * variance))

/-- `_clampedRatio`: `1` inside `[lo, hi]`, linear falloff outside. -/
def clampedRatio (value lo hi falloffRange : ℝ) : ℝ :=
  if lo ≤ value ∧ value ≤ hi then 1
  else
    let distance := if value < lo then lo - value else value - hi
    max 0 (1 - distance / falloffRange)

/-- `_isMouthClosed` with the default thresholds
(`closed.openness = 0.018`, `closed.opennessRatio = 1.4`). -/
def isMouthClosed (st : VCState) (m : VMetrics) : Bool :=
  let openness := m.openness.getD 0
  let upperLipThickness := m.upperLipThickness.getD 0
  let lowerLipThickness := m.lowerLipThickness.getD 0
  let width := m.width.getD 0
  if openness ≤ 0.018 then true
  else
    let thicknessSum := upperLipThickness + lowerLipThickness
    let thicknessRatio := if 0 < width then thicknessSum / width else 0
    if openness ≤ 0.028 ∧ 0.25 < thicknessRatio then true
    else
      match st.baseline with
      | some b =>
        let baselineOpenness := if b.openness = 0 then 0.01 else b.openness
        decide (openness ≤ baselineOpenness * 1.4)
      | none => if openness ≤ 0.018 then true else false

/-- `_scoreForA` at the default thresholds. -/
def scoreForA (m : VMetrics) : ℝ :=
  let openness := m.openness.getD 0
  let aspectRatio := m.aspectRatio.getD 0
  let area := m.area.getD 0
  let width := m.width.getD 0
  let jawMovement := m.jawMovement.getD 0
  let jawRatio := if 0 < width then jawMovement / width else 0
  let openScore := gaussianScore openness 0.11 0.02
  let aspectScore := clampedRatio aspectRatio 1.1 1.9 1.6
  let areaScore := min (area / 0.025) 1
  let combined := openScore * 0.65 + aspectScore * 0.25 + areaScore * 0.1
  if openness < 0.09 then combined * (max 0.18 (openness / 0.09)) * 0.32
  else if openness < 0.09 then combined * 0.65
  else if aspectRatio < 1.1 then combined * 0.38
  else if 0 < jawRatio ∧ jawRatio < 0.6 then combined * 0.55
  else combined

/-- `_scoreForI` at the default thresholds. -/
def scoreForI (m : VMetrics) : ℝ :=
  let openness := m.openness.getD 0
  let width := m.width.getD 0
  let aspectRatio := m.aspectRatio.getD 0
  let upperLipThickness := m.upperLipThickness.getD 0
  let lowerLipThickness := m.lowerLipThickness.getD 0
  let aspectScore := gaussianScore aspectRatio 6.5 1.5
  let opennessScore := if openness < 0.04 then 1 else max 0 (1 - (openness - 0.04) / 0.04)
  let widthScore := if 0.08 < width then min ((width - 0.08) / 0.05) 1 else 0
  let angle := |m.mouthCornerAngleAverage.getD 0|
  let cornerScore := 1 - min (angle / 0.25) 1
  let lipRatio := if 0 < width then (upperLipThickness + lowerLipThickness) / width else 0
  let lipScore := gaussianScore lipRatio 0.12 0.06
  let combined := aspectScore * 0.35 + opennessScore * 0.15 + widthScore * 0.3 +
    cornerScore * 0.1 + lipScore * 0.1
  if aspectRatio < 4.0 then combined * 0.22
  else if 0.05 < openness then combined * 0.38
  else if openness < 0.04 then combined * 0.55
  else combined

/-- `_scoreForU` at the default thresholds. -/
def scoreForU (m : VMetrics) : ℝ :=
  let openness := m.openness.getD 0
  let width := m.width.getD 0
  let aspectRatio := m.aspectRatio.getD 0
  let circularity := m.circularity.getD 0
  let lipProtrusion := m.lipProtrusion.getD 0
  let widthScore := if width < 0.05 then 1 else max 0 (1 - (width - 0.05) / 0.05)
  let circularityScore := circularity
  let opennessScore := if openness < 0.05 then 1 else max 0 (1 - (openness - 0.05) / 0.02)
  let aspectScore := if 1.0 ≤ aspectRatio ∧ aspectRatio ≤ 2.4 then 1 else 0.6
  let protrusionScore := if lipProtrusion ≠ 0 then min (lipProtrusion / 0.012) 1 else 0.2
  let combined := widthScore * 0.25 + circularityScore * 0.25 + opennessScore * 0.2 +
    protrusionScore * 0.2 + aspectScore * 0.1
  if 0.06 < width then combined * 0.18
  else if circularity < 0.35 then combined * 0.38
  else if openness < 0.04 then combined * 0.48
  else combined

/-- `_scoreForE` at the default thresholds. -/
def scoreForE (m : VMetrics) : ℝ :=
  let openness := m.openness.getD 0
  let width := m.width.getD 0
  let aspectRatio := m.aspectRatio.getD 0
  let upperLipThickness := m.upperLipThickness.getD 0
  let lowerLipThickness := m.lowerLipThickness.getD 0
  let aspectScore := gaussianScore aspectRatio 3.0 1.0
  let opennessScore := gaussianScore openness 0.045 0.015
  let widthScore := if 0.08 < width then min ((width - 0.08) / 0.05) 1 else 0.4
  let angle := |m.mouthCornerAngleAverage.getD 0|
  let cornerScore := 1 - min (angle / 0.28) 1
  let gap := |upperLipThickness - lowerLipThickness|
  let lipGapScore := gaussianScore gap 0.008 0.008
  let combined := aspectScore * 0.28 + opennessScore * 0.2 + widthScore * 0.3 +
    cornerScore * 0.1 + lipGapScore * 0.12
  if aspectRatio < 2.0 then combined * 0.35
  else if openness < 0.03 then combined * 0.08
  else if 0.06 < openness then combined * 0.35
  else if openness < 0.04 then combined * 0.35
  else combined

/-- `_scoreForO` at the default thresholds. -/
def scoreForO (m : VMetrics) : ℝ :=
  let openness := m.openness.getD 0
  let width := m.width.getD 0
  let circularity := m.circularity.getD 0
  let lipProtrusion := m.lipProtrusion.getD 0
  let upperLipThickness := m.upperLipThickness.getD 0
  let lowerLipThickness := m.lowerLipThickness.getD 0
  let circularityScore := circularity
  let thicknessSum := upperLipThickness + lowerLipThickness
  let thicknessRatio := if 0 < thicknessSum then width / thicknessSum else 0
  let thicknessScore := gaussianScore thicknessRatio 4.0 1.5
  let opennessScore := gaussianScore openness 0.055 0.02
  let widthScore := gaussianScore width 0.07 0.02
  let protrusionScore := if lipProtrusion ≠ 0 then min (lipProtrusion / 0.015) 1 else 0.2
  let combined := circularityScore * 0.3 + thicknessScore * 0.2 + protrusionScore * 0.2 +
    opennessScore * 0.15 + widthScore * 0.15
  if circularity < 0.38 then combined * 0.28
  else if openness < 0.05 then combined * 0.48
  else combined

/-- `_calculateScores`. -/
def calculateScores (m : VMetrics) : Scores :=
  { a := scoreForA m, i := scoreForI m, u := scoreForU m, e := scoreForE m, o := scoreForO m }

/-- `_selectTopVowel`: iterate the score entries in insertion order
(`a, i, u, e, o`), keeping the strictly greater score (the `-Infinity`
seed makes `a` win the first comparison unconditionally). -/
def selectTopVowel (s : Scores) : Vowel × ℝ :=
  [(Vowel.i, s.i), (Vowel.u, s.u), (Vowel.e, s.e), (Vowel.o, s.o)].foldl
    (fun acc p => if acc.2 < p.2 then p else acc) (Vowel.a, s.a)

/-- `_getMinScoreThreshold`: a higher bar for nearly-closed mouths. -/
def getMinScoreThreshold (m : VMetrics) : ℝ :=
  if m.openness.getD 0 < 0.04 then 0.45 else 0.28

/-- `_calculateProbabilities`: scores normalized by their sum (the produced
object has no `closed` key, read as `0` downstream). -/
def calculateProbabilities (s : Scores) (totalScore : ℝ) : Probs :=
  if totalScore = 0 then emptyProbs
  else
    { a := s.a / totalScore, i := s.i / totalScore, u := s.u / totalScore
      e := s.e / totalScore, o := s.o / totalScore, closed := 0 }

/-- `_smoothProbabilities`: first call stores and returns the input;
afterwards an EMA with factor `smoothingAlpha` over the six keys.  Returns
the new `probabilityEma` together with the returned map (the source stores
and returns the same object). -/
def smoothProbabilities (st : VCState) (probabilities : Probs) : Probs × Probs :=
  match st.probabilityEma with
  | none => (probabilities, probabilities)
  | some prev =>
    let alpha := st.smoothingAlpha
    let smoothed : Probs :=
      { a := prev.a * alpha + probabilities.a * (1 - alpha)
        i := prev.i * alpha + probabilities.i * (1 - alpha)
        u := prev.u * alpha + probabilities.u * (1 - alpha)
        e := prev.e * alpha + probabilities.e * (1 - alpha)
        o := prev.o * alpha + probabilities.o * (1 - alpha)
        closed := prev.closed * alpha + probabilities.closed * (1 - alpha) }
    (smoothed, smoothed)

/-- `_transitionPenalty`. -/
def transitionPenalty (temporalFeatures : Option TemporalFeatures) : ℝ :=
  match temporalFeatures with
  | none => 1
  | some tf =>
    let opennessVelocity := |tf.opennessVelocity.getD 0|
    let widthVelocity := |tf.widthVelocity.getD 0|
    let opennessAcc := |tf.opennessAcceleration.getD 0|
    let widthAcc := |tf.widthAcceleration.getD 0|
    let velocitySum := opennessVelocity + widthVelocity
    let accSum := opennessAcc + widthAcc
    if 0.35 < velocitySum ∨ 0.7 < accSum then 0.7
    else if 0.18 < velocitySum ∨ 0.35 < accSum then 0.85
    else 1

/-- Object-key insertion order of the `counts` map built by `_smoothVowel`:
first occurrence order of the vowels in the history. -/
def insertionOrder (l : List Vowel) : List Vowel :=
  l.foldl (fun acc v => if v ∈ acc then acc else acc ++ [v]) []

/-- Confidence-weighted count of a vowel in the history. -/
def vowelCount (hist : List (Vowel × ℝ)) (v : Vowel) : ℝ :=
  ((hist.filter (fun item => item.1 = v)).map (·.2)).sum

/-- `_smoothVowel`: push the pair onto the capped history, pick the vowel
with the largest confidence-weighted count (insertion order, strict
improvement), divide that vowel's summed confidence by the safe count and
apply the transition penalty.  Returns the new history and the smoothed
`{vowel, confidence}` pair. -/
def smoothVowel (st : VCState) (vowel : Option Vowel) (confidence : ℝ)
    (temporalFeatures : Option TemporalFeatures) :
    List (Vowel × ℝ) × (Option Vowel × ℝ) :=
  match vowel with
  | none => ([], (none, 0))
  | some v =>
    let pushed := st.vowelHistory ++ [(v, confidence)]
    let hist := if st.historyLength < pushed.length then pushed.tail else pushed
    let majority := (insertionOrder (hist.map (·.1))).foldl
      (fun acc k => if acc.2 < vowelCount hist k then (k, vowelCount hist k) else acc) (v, 0)
    let safeCount := if 0 < majority.2 then majority.2 else 1
    let avgConfidence :=
      ((hist.filter (fun item => item.1 = majority.1)).map (·.2)).sum / safeCount
    let penalty := transitionPenalty temporalFeatures
    (hist, (some majority.1, avgConfidence * penalty))

/-- `_applyConfidenceGate`: report the vowel only at confidence ≥ 0.5. -/
def applyConfidenceGate (smoothed : Option Vowel × ℝ) : Option Vowel × ℝ :=
  if 0.5 ≤ smoothed.2 then smoothed else (none, 0)

/-- `_createResult`: assemble the result (with its metrics snapshot and
display label) and fire `onVowelDetected` when registered; the second
component is the number of callback invocations. -/
def createResult (st : VCState) (vowel : Option Vowel) (confidence : ℝ)
    (probabilities : Probs) (metrics : Option VMetrics) (scores : Option Scores) :
    VResult × ℕ :=
  let result : VResult :=
    { vowel := vowel
      confidence := confidence
      probabilities := probabilities
      scores := scores
      metricsEcho := metrics.map (fun m =>
        { openness := m.openness, width := m.width, aspectRatio := m.aspectRatio
          area := m.area, circularity := m.circularity, scale := m.scale })
      displayVowel := some (match vowel with | some v => labelMap v | none => "-") }
  (result, if st.hasCallback then 1 else 0)

/-- `_createEmptyResult`: no vowel, zero confidence, all-zero
probabilities, empty scores, no metrics snapshot — and no callback. -/
def createEmptyResult : VResult :=
  { vowel := none, confidence := 0, probabilities := emptyProbs, scores := none
    metricsEcho := none, displayVowel := none }

/-- `classify(metrics, temporalFeatures)`: input gate, closed-mouth gate,
scoring, minimum-score gate, probability normalization and smoothing,
majority-vote smoothing, transition penalty and confidence gate.  Returns
the updated classifier state, the result, and the number of
`onVowelDetected` invocations the call performed. -/
def classify (st : VCState) (metrics : Option VMetrics)
    (temporalFeatures : Option TemporalFeatures) : VCState × VResult × ℕ :=
  match metrics with
  | none => (st, createEmptyResult, 0)
  | some m =>
    if hasRequiredMetrics (some m) = false then (st, createEmptyResult, 0)
    else if isMouthClosed st m then
      let r := createResult st (some Vowel.closed) 1
        { closed := 1, a := 0, i := 0, u := 0, e := 0, o := 0 } (some m) none
      (st, r.1, r.2)
    else
      let scores := calculateScores m
      let top := selectTopVowel scores
      if top.2 < getMinScoreThreshold m then (st, createEmptyResult, 0)
      else
        let totalScore := scores.a + scores.i + scores.u + scores.e + scores.o
        let probabilities := calculateProbabilities scores totalScore
        let ema := smoothProbabilities st probabilities
        let smoothedProbabilities := ema.2
        let sm := smoothVowel st (some top.1) (smoothedProbabilities.get top.1) temporalFeatures
        let gated := applyConfidenceGate sm.2
        let st2 := { st with probabilityEma := some ema.1, vowelHistory := sm.1 }
        let r := createResult st2 gated.1 gated.2 smoothedProbabilities (some m) (some scores)
        (st2, r.1, r.2)

/-! ### Concrete inputs and session invariant used by the theorems -/

/-- Invariant of a calibration session that started with stored baseline
`b0`: either the promise has not resolved successfully and the stored
baseline is still `b0`, or it resolved with a baseline aggregated from at
least `minSamples` recorded samples, which is now installed (and the timer
is cleared). -/
def SessionInv (cfg : CalibConfig) (b0 : Option CalibBaseline) (st : CalibState) : Prop :=
  (st.baseline = b0 ∧ ∀ ob, st.outcome ≠ some (Except.ok ob)) ∨
  (∃ ss now, cfg.minSamples ≤ ss.length ∧
    st.outcome = some (Except.ok (calculateBaseline ss now)) ∧
    st.baseline = calculateBaseline ss now ∧ st.timerActive = false)

/-- A valid metrics frame polled during the demonstration session. -/
def demoCalibMetrics : CalibMetrics :=
  { openness := some 2, width := some 6, aspectRatio := some 3
    area := some 1, upperLipThickness := some 1, lowerLipThickness := some 1 }

/-- A short calibration configuration: 300 ms duration, 100 ms interval,
two required samples. -/
def demoCalibConfig : CalibConfig := { duration := 300, sampleInterval := 100, minSamples := 2 }

/-- Event trace in which `stopCalibration()` is called after the first
sample, and the (never cancelled) interval timer keeps firing afterwards. -/
def demoStopEvents : List CalibEvent :=
  [CalibEvent.tick 0 (some demoCalibMetrics), CalibEvent.stop,
    CalibEvent.tick 100 (some demoCalibMetrics), CalibEvent.tick 300 (some demoCalibMetrics)]

/-- Basic landmark snapshot used by the aspect-ratio counterexample
(`topOuter=(0.5,0.40)`, `bottomOuter=(0.5,0.50)`, `leftEnd=(0.40,0.45)`,
`rightEnd=(0.60,0.45)`). -/
def demoMouth : BasicLandmarks :=
  { topOuter := some { x := 0.5, y := 0.40, z := 0 }
    bottomOuter := some { x := 0.5, y := 0.50, z := 0 }
    leftEnd := some { x := 0.40, y := 0.45, z := 0 }
    rightEnd := some { x := 0.60, y := 0.45, z := 0 } }

/-- Face landmarks whose eye-outer-corner distance is `2`, giving a face
scale of `2`. -/
def demoFace : List IndexedLandmark :=
  [{ index := 33, point := { x := 0, y := 0, z := 0 } },
    { index := 263, point := { x := 2, y := 0, z := 0 } }]

/-! ### Theorems -/

theorem foldl_min_mem {α : Type} [LinearOrder α] :
    ∀ (xs : List α) (x : α), xs.foldl min x ∈ x :: xs := by
  intro xs
  induction xs with
  | nil => intro x; simp
  | cons y ys ih =>
    intro x
    rw [List.foldl_cons]
    rcases List.mem_cons.mp (ih (min x y)) with h1 | h1
    · rw [h1]
      rcases le_total x y with hxy | hxy
      · simp [min_eq_left hxy]
      · simp [min_eq_right hxy]
    · exact List.mem_cons.mpr (Or.inr (List.mem_cons.mpr (Or.inr h1)))

theorem foldl_min_le {α : Type} [LinearOrder α] :
    ∀ (xs : List α) (x : α), ∀ v ∈ x :: xs, xs.foldl min x ≤ v := by
  intro xs
  induction xs with
  | nil => intro x v hv; simp at hv; simp [hv]
  | cons y ys ih =>
    intro x v hv
    have hle : ys.foldl min (min x y) ≤ min x y := ih (min x y) _ (List.mem_cons_self _ _)
    rcases List.mem_cons.mp hv with rfl | hv1
    · exact le_trans (by simpa [List.foldl_cons] using hle) (min_le_left _ _)
    rcases List.mem_cons.mp hv1 with rfl | hv2
    · exact le_trans (by simpa [List.foldl_cons] using hle) (min_le_right _ _)
    · exact ih (min x y) v (List.mem_cons.mpr (Or.inr hv2))

theorem foldl_max_mem {α : Type} [LinearOrder α] :
    ∀ (xs : List α) (x : α), xs.foldl max x ∈ x :: xs := by
  intro xs
  induction xs with
  | nil => intro x; simp
  | cons y ys ih =>
    intro x
    rw [List.foldl_cons]
    rcases List.mem_cons.mp (ih (max x y)) with h1 | h1
    · rw [h1]
      rcases le_total x y with hxy | hxy
      · simp [max_eq_right hxy]
      · simp [max_eq_left hxy]
    · exact List.mem_cons.mpr (Or.inr (List.mem_cons.mpr (Or.inr h1)))

theorem foldl_max_ge {α : Type} [LinearOrder α] :
    ∀ (xs : List α) (x : α), ∀ v ∈ x :: xs, v ≤ xs.foldl max x := by
  intro xs
  induction xs with
  | nil => intro x v hv; simp at hv; simp [hv]
  | cons y ys ih =>
    intro x v hv
    have hge : max x y ≤ ys.foldl max (max x y) := ih (max x y) _ (List.mem_cons_self _ _)
    rcases List.mem_cons.mp hv with rfl | hv1
    · exact le_trans (le_max_left _ _) (by simpa [List.foldl_cons] using hge)
    rcases List.mem_cons.mp hv1 with rfl | hv2
    · exact le_trans (le_max_right _ _) (by simpa [List.foldl_cons] using hge)
    · exact ih (max x y) v (List.mem_cons.mpr (Or.inr hv2))

theorem jsMinList_mem {α : Type} [LinearOrder α] [Zero α] (l : List α) (h : l ≠ []) :
    jsMinList l ∈ l := by
  cases l with
  | nil => exact absurd rfl h
  | cons x xs => exact foldl_min_mem xs x

theorem jsMinList_le {α : Type} [LinearOrder α] [Zero α] (l : List α) :
    ∀ v ∈ l, jsMinList l ≤ v := by
  cases l with
  | nil => intro v hv; simp at hv
  | cons x xs => exact foldl_min_le xs x

theorem jsMaxList_mem {α : Type} [LinearOrder α] [Zero α] (l : List α) (h : l ≠ []) :
    jsMaxList l ∈ l := by
  cases l with
  | nil => exact absurd rfl h
  | cons x xs => exact foldl_max_mem xs x

theorem jsMaxList_ge {α : Type} [LinearOrder α] [Zero α] (l : List α) :
    ∀ v ∈ l, v ≤ jsMaxList l := by
  cases l with
  | nil => intro v hv; simp at hv
  | cons x xs => exact foldl_max_ge xs x

theorem jsMinList_nonneg {α : Type} [LinearOrder α] [Zero α] (l : List α)
    (h : ∀ v ∈ l, 0 ≤ v) : 0 ≤ jsMinList l := by
  cases l with
  | nil => simp [jsMinList]
  | cons x xs => exact h _ (foldl_min_mem xs x)

/-- C3: the first `smooth(k, P)` call after construction or reset returns
`P` unchanged and stores it; every later call returns, per axis,
`prev·factor + new·(1-factor)` (an absent `z` reads as 0); in particular
`smooth(k,(0,0,0))` then `smooth(k,(1,0,0))` at factor `0.5` returns
exactly `(0.5, 0, 0)`. -/
theorem smooth_first_call_and_ema :
    (∀ (s : SmootherState) (key : String) (P : SPoint),
      s.previousValues key = none →
      (s.smooth key (some P)).2 = some P ∧
      (s.smooth key (some P)).1.previousValues key = some P) ∧
    (∀ (s : SmootherState) (key : String) (P prev : SPoint),
      s.previousValues key = some prev →
      (s.smooth key (some P)).2 = some
        { x := prev.x * s.smoothingFactor + P.x * (1 - s.smoothingFactor)
          y := prev.y * s.smoothingFactor + P.y * (1 - s.smoothingFactor)
          z := some (prev.z.getD 0 * s.smoothingFactor + P.z.getD 0 * (1 - s.smoothingFactor)) }) ∧
    (((SmootherState.init (1/2)).smooth "k" (some { x := 0, y := 0, z := some 0 })).1.smooth "k"
        (some { x := 1, y := 0, z := some 0 })).2 = some { x := 1/2, y := 0, z := some 0 } := by
  refine ⟨?_, ?_, ?_⟩
  · intro s key P h
    constructor
    · simp [SmootherState.smooth, h]
    · simp [SmootherState.smooth, h, Function.update_same]
  · intro s key P prev h
    simp [SmootherState.smooth, h]
  · have e1 : (SmootherState.init (1/2)).smooth "k" (some { x := 0, y := 0, z := some 0 }) =
        ({ smoothingFactor := 1/2,
            previousValues := Function.update (fun _ => none) "k"
              (some { x := 0, y := 0, z := some 0 }) },
          some { x := 0, y := 0, z := some 0 }) := rfl
    rw [e1]
    simp only [SmootherState.smooth, Function.update_same]
    norm_num

/-- Witness for `smooth_first_call_and_ema`: the first-call clause at a
fresh smoother and a concrete point. -/
theorem smooth_first_call_and_ema_witness :
    ((SmootherState.init (1/2)).smooth "hello" (some { x := 3, y := 4, z := none })).2 =
      some { x := 3, y := 4, z := none } :=
  (smooth_first_call_and_ema.1 (SmootherState.init (1/2)) "hello"
    { x := 3, y := 4, z := none } rfl).1

/-- Helper: the last and second-to-last elements of a `++ [p, c]` buffer. -/
theorem getElem_append_pair (hs : List TFrame) (p c : TFrame) :
    (hs ++ [p, c])[(hs ++ [p, c]).length - 1]? = some c ∧
    (hs ++ [p, c])[(hs ++ [p, c]).length - 2]? = some p := by
  have hlen : (hs ++ [p, c]).length = hs.length + 2 := by simp
  constructor
  · rw [hlen, show hs.length + 2 - 1 = hs.length + 1 from rfl,
      List.getElem?_append_right (by omega)]
    simp
  · rw [hlen, show hs.length + 2 - 2 = hs.length from rfl,
      List.getElem?_append_right (by omega)]
    simp

/-- C4: `getVelocity` is `0` with fewer than two frames or equal
timestamps of the two most recent frames, and otherwise the value
difference divided by the timestamp difference in seconds; the concrete
pair `(t=0, 0.10) → (t=100ms, 0.12)` gives exactly `0.2` units/second. -/
theorem getVelocity_spec :
    (∀ (st : TemporalState) (f : String), st.history.length < 2 → st.getVelocity f = 0) ∧
    (∀ (st : TemporalState) (f : String) (hs : List TFrame) (p c : TFrame),
      st.history = hs ++ [p, c] → c.timestamp = p.timestamp → st.getVelocity f = 0) ∧
    (∀ (st : TemporalState) (f : String) (hs : List TFrame) (p c : TFrame) (cv pv : ℚ),
      st.history = hs ++ [p, c] → c.metrics f = some cv → p.metrics f = some pv →
      c.timestamp ≠ p.timestamp →
      st.getVelocity f = (cv - pv) / ((c.timestamp - p.timestamp) / 1000)) ∧
    TemporalState.getVelocity
      { history :=
          [{ timestamp := 0, metrics := fun f => if f = "openness" then some (10/100) else none },
            { timestamp := 100, metrics := fun f => if f = "openness" then some (12/100) else none }] }
      "openness" = 1/5 := by
  refine ⟨?_, ?_, ?_, ?_⟩
  · intro st f h
    simp [TemporalState.getVelocity, h]
  · intro st f hs p c hh ht
    obtain ⟨h1, h2⟩ := getElem_append_pair hs p c
    unfold TemporalState.getVelocity
    rw [hh]
    rw [if_neg (by simp)]
    simp only [h1, h2]
    cases hcm : c.metrics f with
    | none => rfl
    | some cv =>
      cases hpm : p.metrics f with
      | none => rfl
      | some pv => simp [sub_eq_zero.mpr ht]
  · intro st f hs p c cv pv hh hc hp ht
    obtain ⟨h1, h2⟩ := getElem_append_pair hs p c
    unfold TemporalState.getVelocity
    rw [hh]
    rw [if_neg (by simp)]
    simp only [h1, h2, hc, hp]
    rw [if_neg (sub_ne_zero_of_ne ht)]
  · norm_num [TemporalState.getVelocity]

/-- Witness for `getVelocity_spec`: the general formula clause evaluated on
the two concrete frames of the claim. -/
theorem getVelocity_spec_witness :
    TemporalState.getVelocity
      { history :=
          [{ timestamp := 0, metrics := fun _ => some (10/100) },
            { timestamp := 100, metrics := fun _ => some (12/100) }] }
      "openness" = (12/100 - 10/100 : ℚ) / ((100 - 0) / 1000) :=
  getVelocity_spec.2.2.1
    { history :=
        [{ timestamp := 0, metrics := fun _ => some (10/100) },
          { timestamp := 100, metrics := fun _ => some (12/100) }] }
    "openness" []
    { timestamp := 0, metrics := fun _ => some (10/100) }
    { timestamp := 100, metrics := fun _ => some (12/100) }
    (12/100) (10/100) rfl rfl rfl (by norm_num)

/-- Helper: `_completeCalibration` establishes the session invariant when
the pre-completion state has not yet resolved and its timer was cleared. -/
theorem completeCalibration_inv (cfg : CalibConfig) (b0 : Option CalibBaseline)
    (st2 : CalibState) (now : ℚ) (hb : st2.baseline = b0) (hta : st2.timerActive = false) :
    SessionInv cfg b0 (completeCalibration cfg st2 now) := by
  unfold completeCalibration
  by_cases hlt : st2.samples.length < cfg.minSamples
  · rw [if_pos hlt]
    exact Or.inl ⟨hb, by intro ob hc; simp at hc⟩
  · rw [if_neg hlt]
    exact Or.inr ⟨st2.samples, now, Nat.le_of_not_lt hlt, rfl, rfl, hta⟩

/-- Helper: the valid-tick body preserves the session invariant when the
timer is still scheduled. -/
theorem calibTickSample_preserves_inv (cfg : CalibConfig) (endTime : ℚ)
    (b0 : Option CalibBaseline) (st : CalibState) (now : ℚ) (metrics : CalibMetrics)
    (hta : st.timerActive = true) (h : SessionInv cfg b0 st) :
    SessionInv cfg b0 (calibTickSample cfg endTime st now metrics) := by
  have hleft : st.baseline = b0 ∧ ∀ ob, st.outcome ≠ some (Except.ok ob) := by
    rcases h with hl | ⟨_, _, _, _, _, ht⟩
    · exact hl
    · rw [hta] at ht; cases ht
  unfold calibTickSample
  by_cases hg : jsTruthy metrics.openness = false ∨ jsTruthy metrics.width = false
  · rw [if_pos hg]; exact h
  · rw [if_neg hg]
    dsimp only
    by_cases hend : endTime ≤ now
    · rw [if_pos hend]
      exact completeCalibration_inv cfg b0 _ now hleft.1 rfl
    · rw [if_neg hend]
      exact Or.inl hleft

/-- Helper: one calibration step preserves the session invariant. -/
theorem calibStep_preserves_inv (cfg : CalibConfig) (endTime : ℚ) (b0 : Option CalibBaseline)
    (st : CalibState) (ev : CalibEvent) (h : SessionInv cfg b0 st) :
    SessionInv cfg b0 (calibStep cfg endTime st ev) := by
  cases ev with
  | stop => exact h
  | tick now m =>
    by_cases hta : st.timerActive = false
    · simp only [calibStep]
      rw [if_pos hta]
      exact h
    · have hta2 : st.timerActive = true := by
        revert hta; cases st.timerActive <;> simp
      cases m with
      | none =>
        simp only [calibStep]
        rw [if_neg hta]
        exact h
      | some metrics =>
        have e : calibStep cfg endTime st (CalibEvent.tick now (some metrics)) =
            calibTickSample cfg endTime st now metrics := by
          simp only [calibStep]
          rw [if_neg hta]
        rw [e]
        exact calibTickSample_preserves_inv cfg endTime b0 st now metrics hta2 h

/-- Helper: the session invariant holds along any event trace. -/
theorem runCalibration_preserves_inv (cfg : CalibConfig) (endTime : ℚ)
    (b0 : Option CalibBaseline) (evs : List CalibEvent) (st : CalibState)
    (h : SessionInv cfg b0 st) :
    SessionInv cfg b0 (runCalibration cfg endTime st evs) := by
  induction evs generalizing st with
  | nil => exact h
  | cons ev rest ih =>
    exact ih (calibStep cfg endTime st ev) (calibStep_preserves_inv cfg endTime b0 st ev h)

/-- C8: `startCalibration` while a session is active throws; a session that
reaches its completion tick with fewer than `minSamples` samples rejects
with the insufficient-samples error and leaves the previously stored
baseline untouched (over a whole trace: an error outcome keeps the baseline
at its pre-session value), while a completion with at least `minSamples`
samples resolves with the aggregated baseline, which is installed. -/
theorem calibration_error_cases :
    (∀ (cfg : CalibConfig) (st : CalibState) (t : ℚ), st.isCalibrating = true →
      startCalibration cfg st t = Except.error calibrationActiveError) ∧
    (∀ (cfg : CalibConfig) (endTime : ℚ) (b0 : Option CalibBaseline) (evs : List CalibEvent),
      (∀ msg, (runCalibration cfg endTime (freshSession b0) evs).outcome =
          some (Except.error msg) →
        (runCalibration cfg endTime (freshSession b0) evs).baseline = b0) ∧
      (∀ ob, (runCalibration cfg endTime (freshSession b0) evs).outcome =
          some (Except.ok ob) →
        (runCalibration cfg endTime (freshSession b0) evs).baseline = ob ∧
        ∃ ss now, cfg.minSamples ≤ ss.length ∧ ob = calculateBaseline ss now)) ∧
    (∀ (cfg : CalibConfig) (endTime : ℚ) (st : CalibState) (now : ℚ) (metrics : CalibMetrics),
      st.timerActive = true → jsTruthy metrics.openness = true → jsTruthy metrics.width = true →
      endTime ≤ now →
      (st.samples.length + 1 < cfg.minSamples →
        (calibStep cfg endTime st (CalibEvent.tick now (some metrics))).outcome =
          some (Except.error insufficientSamplesError) ∧
        (calibStep cfg endTime st (CalibEvent.tick now (some metrics))).baseline =
          st.baseline) ∧
      (cfg.minSamples ≤ st.samples.length + 1 →
        ∃ sample,
          (calibStep cfg endTime st (CalibEvent.tick now (some metrics))).outcome =
            some (Except.ok (calculateBaseline (st.samples ++ [sample]) now)) ∧
          (calibStep cfg endTime st (CalibEvent.tick now (some metrics))).baseline =
            calculateBaseline (st.samples ++ [sample]) now)) := by
  refine ⟨?_, ?_, ?_⟩
  · intro cfg st t h
    simp [startCalibration, h]
  · intro cfg endTime b0 evs
    have hinv : SessionInv cfg b0 (runCalibration cfg endTime (freshSession b0) evs) := by
      refine runCalibration_preserves_inv cfg endTime b0 evs (freshSession b0) ?_
      exact Or.inl ⟨rfl, by intro ob hc; simp [freshSession] at hc⟩
    constructor
    · intro msg hmsg
      rcases hinv with ⟨hb, _⟩ | ⟨ss, n2, _, ho, _, _⟩
      · exact hb
      · rw [ho] at hmsg
        simp at hmsg
    · intro ob hob
      rcases hinv with ⟨_, hno⟩ | ⟨ss, n2, hlen, ho, hb, _⟩
      · exact absurd hob (hno ob)
      · rw [ho] at hob
        have hsame : calculateBaseline ss n2 = ob :=
          Except.ok.inj (Option.some.inj hob)
        exact ⟨by rw [hb, hsame], ss, n2, hlen, hsame.symm⟩
  · intro cfg endTime st now metrics hta ho hw hend
    have hta2 : ¬ st.timerActive = false := by rw [hta]; simp
    have e : calibStep cfg endTime st (CalibEvent.tick now (some metrics)) =
        calibTickSample cfg endTime st now metrics := by
      simp only [calibStep]
      rw [if_neg hta2]
    rw [e]
    unfold calibTickSample
    rw [if_neg (by simp [ho, hw])]
    dsimp only
    rw [if_pos hend]
    unfold completeCalibration
    constructor
    · intro hlt
      rw [if_pos (by simpa using hlt)]
      exact ⟨rfl, rfl⟩
    · intro hge
      refine ⟨{ timestamp := now
                openness := metrics.openness.getD 0
                width := metrics.width.getD 0
                aspectRatio := metrics.aspectRatio
                area := metrics.area.getD 0
                upperLipThickness := metrics.upperLipThickness.getD 0
                lowerLipThickness := metrics.lowerLipThickness.getD 0 }, ?_, ?_⟩ <;>
        rw [if_neg (by simp only [List.length_append, List.length_cons, List.length_nil]; omega)]

/-- Witness for `calibration_error_cases`: starting a second session while
one is active errors immediately. -/
theorem calibration_error_cases_witness :
    startCalibration demoCalibConfig
      { isCalibrating := true, samples := [], baseline := none, timerActive := true
        outcome := none } 0 = Except.error calibrationActiveError :=
  calibration_error_cases.1 demoCalibConfig
    { isCalibrating := true, samples := [], baseline := none, timerActive := true
      outcome := none } 0 rfl

/-- C9 (code bug): `stopCalibration()` never clears the interval timer (its
handle is local to `startCalibration`), so after a stop the session keeps
recording samples and its pending promise can still resolve with a
Baseline.  Concretely: a 300 ms session with `minSamples = 2` that is
stopped after one sample still records two further samples and resolves
with the baseline aggregated from them. -/
theorem stopCalibration_orphan_timer :
    (calibStep demoCalibConfig 300 (freshSession none) CalibEvent.stop).timerActive = true ∧
    (runCalibration demoCalibConfig 300 (freshSession none) demoStopEvents).samples =
      [⟨100, 2, 6, some 3, 1, 1, 1⟩, ⟨300, 2, 6, some 3, 1, 1, 1⟩] ∧
    (runCalibration demoCalibConfig 300 (freshSession none) demoStopEvents).outcome =
      some (Except.ok (some ⟨2, 6, 3, 1, 2, 2, 6, 300⟩)) := by
  refine ⟨rfl, ?_, ?_⟩ <;>
    norm_num [runCalibration, demoStopEvents, calibStep, calibTickSample, completeCalibration,
      calculateBaseline, calcAvgQ, jsMinList, jsMaxList, jsTruthy, demoCalibConfig,
      demoCalibMetrics, freshSession, List.filter, List.filterMap, Option.bind]

/-- C10: the baseline aggregation first discards the non-positive sample
values per field: the min/max fields are min/max over the strictly
positive values of that field only (and `0` when no positive value
exists), the mean aspect ratio averages the strictly positive aspect
ratios only (summed lip thicknesses are filtered after summing). -/
theorem calculateBaseline_positive_aggregation (samples : List CalibSample) (now : ℚ)
    (b : CalibBaseline) (hb : calculateBaseline samples now = some b) :
    ((samples.map (·.openness)).filter (fun v => 0 < v) = [] → b.openness = 0) ∧
    ((samples.map (·.openness)).filter (fun v => 0 < v) ≠ [] →
      b.openness ∈ (samples.map (·.openness)).filter (fun v => 0 < v) ∧
      ∀ v ∈ (samples.map (·.openness)).filter (fun v => 0 < v), b.openness ≤ v) ∧
    ((samples.map (·.width)).filter (fun v => 0 < v) = [] → b.width = 0) ∧
    ((samples.map (·.width)).filter (fun v => 0 < v) ≠ [] →
      b.width ∈ (samples.map (·.width)).filter (fun v => 0 < v) ∧
      ∀ v ∈ (samples.map (·.width)).filter (fun v => 0 < v), b.width ≤ v) ∧
    ((samples.map (·.area)).filter (fun v => 0 < v) = [] → b.area = 0) ∧
    ((samples.map (·.area)).filter (fun v => 0 < v) ≠ [] →
      b.area ∈ (samples.map (·.area)).filter (fun v => 0 < v) ∧
      ∀ v ∈ (samples.map (·.area)).filter (fun v => 0 < v), b.area ≤ v) ∧
    ((samples.map (fun s => s.upperLipThickness + s.lowerLipThickness)).filter
        (fun v => 0 < v) = [] → b.lipThickness = 0) ∧
    ((samples.map (fun s => s.upperLipThickness + s.lowerLipThickness)).filter
        (fun v => 0 < v) ≠ [] →
      b.lipThickness ∈ (samples.map (fun s => s.upperLipThickness + s.lowerLipThickness)).filter
        (fun v => 0 < v) ∧
      ∀ v ∈ (samples.map (fun s => s.upperLipThickness + s.lowerLipThickness)).filter
        (fun v => 0 < v), b.lipThickness ≤ v) ∧
    ((samples.map (·.openness)).filter (fun v => 0 < v) = [] → b.opennessMax = 0) ∧
    ((samples.map (·.openness)).filter (fun v => 0 < v) ≠ [] →
      b.opennessMax ∈ (samples.map (·.openness)).filter (fun v => 0 < v) ∧
      ∀ v ∈ (samples.map (·.openness)).filter (fun v => 0 < v), v ≤ b.opennessMax) ∧
    ((samples.map (·.width)).filter (fun v => 0 < v) = [] → b.widthMax = 0) ∧
    ((samples.map (·.width)).filter (fun v => 0 < v) ≠ [] →
      b.widthMax ∈ (samples.map (·.width)).filter (fun v => 0 < v) ∧
      ∀ v ∈ (samples.map (·.width)).filter (fun v => 0 < v), v ≤ b.widthMax) ∧
    ((samples.filterMap (fun s => s.aspectRatio.bind (fun v => if 0 < v then some v else none)))
        = [] → b.aspectRatio = 0) ∧
    ((samples.filterMap (fun s => s.aspectRatio.bind (fun v => if 0 < v then some v else none)))
        ≠ [] →
      b.aspectRatio =
        (samples.filterMap (fun s => s.aspectRatio.bind
          (fun v => if 0 < v then some v else none))).sum /
        (samples.filterMap (fun s => s.aspectRatio.bind
          (fun v => if 0 < v then some v else none))).length) := by
  unfold calculateBaseline at hb
  by_cases he : samples.isEmpty
  · rw [if_pos he] at hb
    cases hb
  · rw [if_neg he] at hb
    have hbv := Option.some.inj hb
    subst hbv
    refine ⟨?_, ?_, ?_, ?_, ?_, ?_, ?_, ?_, ?_, ?_, ?_, ?_, ?_, ?_⟩
    · intro h; show jsMinList _ = 0; rw [h]; rfl
    · intro h; exact ⟨jsMinList_mem _ h, jsMinList_le _⟩
    · intro h; show jsMinList _ = 0; rw [h]; rfl
    · intro h; exact ⟨jsMinList_mem _ h, jsMinList_le _⟩
    · intro h; show jsMinList _ = 0; rw [h]; rfl
    · intro h; exact ⟨jsMinList_mem _ h, jsMinList_le _⟩
    · intro h; show jsMinList _ = 0; rw [h]; rfl
    · intro h; exact ⟨jsMinList_mem _ h, jsMinList_le _⟩
    · intro h; show jsMaxList _ = 0; rw [h]; rfl
    · intro h; exact ⟨jsMaxList_mem _ h, jsMaxList_ge _⟩
    · intro h; show jsMaxList _ = 0; rw [h]; rfl
    · intro h; exact ⟨jsMaxList_mem _ h, jsMaxList_ge _⟩
    · intro h; show calcAvgQ _ = 0; rw [h]; rfl
    · intro h
      show calcAvgQ _ = _
      unfold calcAvgQ
      rw [if_pos (List.length_pos.mpr h)]

/-- Witness for `calculateBaseline_positive_aggregation`: on a two-sample
list with one non-positive openness, the aggregated openness is the least
strictly positive openness. -/
theorem calculateBaseline_positive_aggregation_witness :
    (5 : ℚ) ∈ (([⟨0, 5, 6, some 2, 1, 1, 1⟩, ⟨1, -1, 4, none, -2, 0, 0⟩] :
        List CalibSample).map (·.openness)).filter (fun v => 0 < v) ∧
    ∀ v ∈ (([⟨0, 5, 6, some 2, 1, 1, 1⟩, ⟨1, -1, 4, none, -2, 0, 0⟩] :
        List CalibSample).map (·.openness)).filter (fun v => 0 < v), (5 : ℚ) ≤ v := by
  have hb : calculateBaseline
      [⟨0, 5, 6, some 2, 1, 1, 1⟩, ⟨1, -1, 4, none, -2, 0, 0⟩] 7 =
      some ⟨5, 4, 2, 1, 2, 5, 6, 7⟩ := by
    norm_num [calculateBaseline, jsMinList, jsMaxList, calcAvgQ, List.filter,
      List.filterMap, Option.bind]
  have hne : (([⟨0, 5, 6, some 2, 1, 1, 1⟩, ⟨1, -1, 4, none, -2, 0, 0⟩] :
      List CalibSample).map (·.openness)).filter (fun v => 0 < v) ≠ [] := by
    norm_num [List.filter]
  exact (calculateBaseline_positive_aggregation _ 7 _ hb).2.1 hne

/-- Helper: invariants of the radial-distance scan.  Over non-negative
distances, the running maximum stays non-negative, a recorded minimum is
positive and bounded by the maximum, and an empty minimum means no positive
distance was seen (so the maximum never moved). -/
theorem ellipFold_spec (ds : List ℝ) :
    ∀ (mx : ℝ) (mn : Option ℝ), (∀ d ∈ ds, 0 ≤ d) → 0 ≤ mx →
      (∀ m, mn = some m → 0 < m ∧ m ≤ mx) →
      0 ≤ (ellipFold ds (mx, mn)).1 ∧
      (∀ m, (ellipFold ds (mx, mn)).2 = some m → 0 < m ∧ m ≤ (ellipFold ds (mx, mn)).1) ∧
      ((ellipFold ds (mx, mn)).2 = none → (ellipFold ds (mx, mn)).1 = mx ∧ mn = none) := by
  induction ds with
  | nil =>
    intro mx mn _ hmx hmn
    exact ⟨hmx, hmn, fun h => ⟨rfl, h⟩⟩
  | cons d rest ih =>
    intro mx mn hds hmx hmn
    have hd : 0 ≤ d := hds d (List.mem_cons_self d rest)
    have hrest : ∀ x ∈ rest, 0 ≤ x := fun x hx => hds x (List.mem_cons_of_mem d hx)
    show 0 ≤ (ellipFold rest _).1 ∧ _
    have hmx2 : 0 ≤ (if mx < d then d else mx) := by
      split_ifs
      · exact hd
      · exact hmx
    have hmxle : mx ≤ (if mx < d then d else mx) := by
      split_ifs with h
      · exact le_of_lt h
      · exact le_refl mx
    have hdle : d ≤ (if mx < d then d else mx) := by
      split_ifs with h
      · exact le_refl d
      · exact le_of_not_lt h
    cases mn with
    | none =>
      by_cases hdp : 0 < d
      · have h2 := ih (if mx < d then d else mx) (some d) hrest hmx2
          (by intro m hm; cases Option.some.inj hm; exact ⟨hdp, hdle⟩)
        refine ⟨?_, ?_, ?_⟩
        · simpa [ellipFold, hdp] using h2.1
        · intro m hm
          have := h2.2.1 m (by simpa [ellipFold, hdp] using hm)
          simpa [ellipFold, hdp] using this
        · intro hm
          have := h2.2.2 (by simpa [ellipFold, hdp] using hm)
          simp at this
      · have hd0 : d = 0 := le_antisymm (le_of_not_lt hdp) hd
        have hmx2e : (if mx < d then d else mx) = mx := by
          rw [if_neg]
          rw [hd0]
          exact not_lt_of_le hmx
        have h2 := ih (if mx < d then d else mx) none hrest hmx2 (by intro m hm; cases hm)
        refine ⟨?_, ?_, ?_⟩
        · simpa [ellipFold, hdp] using h2.1
        · intro m hm
          have := h2.2.1 m (by simpa [ellipFold, hdp] using hm)
          simpa [ellipFold, hdp] using this
        · intro hm
          have := h2.2.2 (by simpa [ellipFold, hdp] using hm)
          refine ⟨?_, rfl⟩
          have := this.1
          simpa [ellipFold, hdp, hmx2e] using this
    | some m0 =>
      obtain ⟨hm0p, hm0le⟩ := hmn m0 rfl
      by_cases hcond : d < m0 ∧ 0 < d
      · have h2 := ih (if mx < d then d else mx) (some d) hrest hmx2
          (by intro m hm; cases Option.some.inj hm; exact ⟨hcond.2, hdle⟩)
        refine ⟨?_, ?_, ?_⟩
        · simpa [ellipFold, hcond] using h2.1
        · intro m hm
          have := h2.2.1 m (by simpa [ellipFold, hcond] using hm)
          simpa [ellipFold, hcond] using this
        · intro hm
          have := h2.2.2 (by simpa [ellipFold, hcond] using hm)
          simp at this
      · have h2 := ih (if mx < d then d else mx) (some m0) hrest hmx2
          (by intro m hm; cases Option.some.inj hm; exact ⟨hm0p, le_trans hm0le hmxle⟩)
        refine ⟨?_, ?_, ?_⟩
        · simpa [ellipFold, hcond] using h2.1
        · intro m hm
          have := h2.2.1 m (by simpa [ellipFold, hcond] using hm)
          simpa [ellipFold, hcond] using this
        · intro hm
          have := h2.2.2 (by simpa [ellipFold, hcond] using hm)
          simp at this

/-- C5: for every contour landmark input and every area value, the computed
circularity lies in `[0,1]`, the computed symmetry lies in `[0,1]`, and the
computed ellipticity is at least `1`. -/
theorem circularity_symmetry_ellipticity_bounds :
    ∀ (area : ℝ) (c : Option (List IndexedLandmark)),
      0 ≤ calculateCircularity area c ∧ calculateCircularity area c ≤ 1 ∧
      0 ≤ calculateMouthSymmetry c ∧ calculateMouthSymmetry c ≤ 1 ∧
      1 ≤ calculateMouthEllipticity c := by
  intro area c
  refine ⟨?_, ?_, ?_, ?_, ?_⟩
  · unfold calculateCircularity
    dsimp only
    split_ifs
    · exact le_refl 0
    · exact le_refl 0
    · exact le_min (le_max_right _ 0) zero_le_one
  · unfold calculateCircularity
    dsimp only
    split_ifs
    · exact zero_le_one
    · exact zero_le_one
    · exact min_le_right _ 1
  · unfold calculateMouthSymmetry
    split_ifs with h1
    · exact le_refl 0
    · cases hlc : (c.getD []).find? (fun lm => lm.index = 61) with
      | none => simp [hlc]
      | some leftCorner =>
        cases hrc : (c.getD []).find? (fun lm => lm.index = 291) with
        | none => simp [hlc, hrc]
        | some rightCorner =>
          simp only [hlc, hrc]
          split_ifs
          · exact le_refl 0
          · exact le_max_left 0 _
          · exact le_refl 0
  · unfold calculateMouthSymmetry
    split_ifs with h1
    · exact zero_le_one
    · cases hlc : (c.getD []).find? (fun lm => lm.index = 61) with
      | none => simp [hlc]
      | some leftCorner =>
        cases hrc : (c.getD []).find? (fun lm => lm.index = 291) with
        | none => simp [hlc, hrc]
        | some rightCorner =>
          simp only [hlc, hrc]
          split_ifs with h2 h3
          · exact zero_le_one
          · refine max_le zero_le_one ?_
            have hsum : 0 ≤ (((c.getD []).filter
                (fun lm => lm.point.x < (leftCorner.point.x + rightCorner.point.x) / 2)).map
                  (fun lp => jsMinList (((c.getD []).filter
                    (fun lm => (leftCorner.point.x + rightCorner.point.x) / 2 < lm.point.x)).map
                      (fun rp => Real.sqrt ((rp.point.x - (2 * ((leftCorner.point.x +
                        rightCorner.point.x) / 2) - lp.point.x)) ^ 2 +
                        (rp.point.y - lp.point.y) ^ 2))))).sum := by
              refine List.sum_nonneg ?_
              intro x hx
              obtain ⟨lp, _, rfl⟩ := List.mem_map.mp hx
              refine jsMinList_nonneg _ ?_
              intro v hv
              obtain ⟨rp, _, rfl⟩ := List.mem_map.mp hv
              exact Real.sqrt_nonneg _
            have hquot : 0 ≤ (((c.getD []).filter
                (fun lm => lm.point.x < (leftCorner.point.x + rightCorner.point.x) / 2)).map
                  (fun lp => jsMinList (((c.getD []).filter
                    (fun lm => (leftCorner.point.x + rightCorner.point.x) / 2 < lm.point.x)).map
                      (fun rp => Real.sqrt ((rp.point.x - (2 * ((leftCorner.point.x +
                        rightCorner.point.x) / 2) - lp.point.x)) ^ 2 +
                        (rp.point.y - lp.point.y) ^ 2))))).sum /
                (((c.getD []).filter (fun lm => lm.point.x <
                  (leftCorner.point.x + rightCorner.point.x) / 2)).length : ℝ) :=
              div_nonneg hsum (Nat.cast_nonneg _)
            linarith
          · exact zero_le_one
  · unfold calculateMouthEllipticity
    split_ifs with h1
    · exact le_refl 1
    · cases havg : calculateAveragePoint ((c.getD []).map (·.point)) with
      | none => simp [havg]
      | some center =>
        simp only [havg]
        set dists := ((c.getD []).map (·.point)).map (fun p =>
          Real.sqrt ((p.x - center.x) * (p.x - center.x) +
            (p.y - center.y) * (p.y - center.y))) with hdists
        have hspec := ellipFold_spec dists 0 none
          (by intro d hd
              rw [hdists] at hd
              obtain ⟨p, _, rfl⟩ := List.mem_map.mp hd
              exact Real.sqrt_nonneg _)
          (le_refl 0) (by intro m hm; cases hm)
        cases hef : ellipFold dists (0, none) with
        | mk mx mn =>
          rw [hef] at hspec
          cases mn with
          | some m =>
            obtain ⟨hmp, hmle⟩ := hspec.2.1 m rfl
            show 1 ≤ (if m = 0 ∨ mx = 0 then 1 else mx / m)
            split_ifs with hz
            · exact le_refl 1
            · exact (one_le_div hmp).mpr hmle
          | none =>
            have h0 := (hspec.2.2 rfl).1
            show 1 ≤ (if mx = 0 then 1 else 0)
            rw [if_pos h0]

/-- Helper: the basic-path metrics satisfy the aspect-ratio invariant. -/
theorem basic_invariant (mouth : Option BasicLandmarks) :
    (metricsFromBasic mouth).aspectRatio =
      (metricsFromBasic mouth).width / ((metricsFromBasic mouth).openness + 0.0001) := rfl

/-- Helper: the contour-path metrics satisfy the aspect-ratio invariant. -/
theorem fromContour_invariant (contour : Option (List IndexedLandmark))
    (mouth : Option BasicLandmarks) :
    (calculateMetricsFromContour contour mouth).aspectRatio =
      (calculateMetricsFromContour contour mouth).width /
        ((calculateMetricsFromContour contour mouth).openness + 0.0001) := by
  unfold calculateMetricsFromContour
  split_ifs with h
  · unfold applyScaleNormalization
    dsimp only
    rw [if_pos one_pos]
    simpa using basic_invariant mouth
  · rfl

/-- Helper: normalization keeps `aspectRatio` untouched while dividing
`width` and `openness` by the scale, so the normalized record satisfies the
re-scaled form of the invariant. -/
theorem normalized_invariant (M : MouthMetrics) (scale : ℝ)
    (hM : M.aspectRatio = M.width / (M.openness + 0.0001)) :
    (applyScaleNormalization M scale).aspectRatio =
      ((applyScaleNormalization M scale).width * (applyScaleNormalization M scale).scale) /
        ((applyScaleNormalization M scale).openness * (applyScaleNormalization M scale).scale +
          0.0001) := by
  unfold applyScaleNormalization
  dsimp only
  have hs : (if 0 < scale then scale else 1) ≠ 0 := by
    split_ifs with h
    · exact ne_of_gt h
    · exact one_ne_zero
  rw [div_mul_cancel₀ _ hs, div_mul_cancel₀ _ hs]
  exact hM

/-- C2 (amended): every unnormalized metrics record satisfies
`aspectRatio = width / (openness + ε)`; scale normalization leaves
`aspectRatio` unchanged while dividing `width` and `openness` by the
scale, so the record returned to callers satisfies
`aspectRatio = (width·scale) / (openness·scale + ε)` instead (which
collapses to the claimed invariant exactly when scale = 1). -/
theorem aspectRatio_invariant_amended :
    (∀ (mouth : Option BasicLandmarks) (contour ext face : Option (List IndexedLandmark)),
      (calculateAllMetrics mouth contour ext face false).aspectRatio =
        (calculateAllMetrics mouth contour ext face false).width /
          ((calculateAllMetrics mouth contour ext face false).openness + 0.0001)) ∧
    (∀ (mouth : Option BasicLandmarks) (contour ext face : Option (List IndexedLandmark)),
      (calculateAllMetrics mouth contour ext face true).aspectRatio =
        ((calculateAllMetrics mouth contour ext face true).width *
            (calculateAllMetrics mouth contour ext face true).scale) /
          ((calculateAllMetrics mouth contour ext face true).openness *
              (calculateAllMetrics mouth contour ext face true).scale + 0.0001)) := by
  constructor
  · intro mouth contour ext face
    unfold calculateAllMetrics
    dsimp only
    split_ifs <;>
      first
        | exact fromContour_invariant contour mouth
        | exact basic_invariant mouth
        | simp_all
  · intro mouth contour ext face
    unfold calculateAllMetrics
    dsimp only
    split_ifs <;>
      first
        | exact normalized_invariant _ _ (fromContour_invariant contour mouth)
        | exact normalized_invariant _ _ (basic_invariant mouth)
        | simp_all

/-- Helper: the openness of the demonstration mouth is exactly `0.1`. -/
theorem demoMouth_openness : calculateOpenness (some demoMouth) = 1 / 10 := by
  show jsDistance { x := 0.5, y := 0.40, z := 0 } { x := 0.5, y := 0.50, z := 0 } = 1 / 10
  unfold jsDistance
  dsimp only
  rw [show ((0.5 : ℝ) - 0.5) * ((0.5 : ℝ) - 0.5) + ((0.50 : ℝ) - 0.40) * ((0.50 : ℝ) - 0.40) +
      ((0 : ℝ) - 0) * ((0 : ℝ) - 0) = (1 / 10) ^ 2 by norm_num]
  exact Real.sqrt_sq (by norm_num)

/-- Helper: the width of the demonstration mouth is exactly `0.2`. -/
theorem demoMouth_width : calculateWidth (some demoMouth) = 2 / 10 := by
  show jsDistance { x := 0.40, y := 0.45, z := 0 } { x := 0.60, y := 0.45, z := 0 } = 2 / 10
  unfold jsDistance
  dsimp only
  rw [show ((0.60 : ℝ) - 0.40) * ((0.60 : ℝ) - 0.40) + ((0.45 : ℝ) - 0.45) * ((0.45 : ℝ) - 0.45) +
      ((0 : ℝ) - 0) * ((0 : ℝ) - 0) = (2 / 10) ^ 2 by norm_num]
  exact Real.sqrt_sq (by norm_num)

/-- Helper: the face scale of the demonstration face is exactly `2`. -/
theorem demoFace_scale : calculateFaceScale (some demoFace) = 2 := by
  have hd : jsDistance { x := 0, y := 0, z := 0 } { x := 2, y := 0, z := 0 } = 2 := by
    unfold jsDistance
    dsimp only
    rw [show ((2 : ℝ) - 0) * ((2 : ℝ) - 0) + ((0 : ℝ) - 0) * ((0 : ℝ) - 0) +
        ((0 : ℝ) - 0) * ((0 : ℝ) - 0) = (2 : ℝ) ^ 2 by norm_num]
    exact Real.sqrt_sq (by norm_num)
  unfold calculateFaceScale demoFace
  simp only [List.find?, List.length]
  norm_num [hd]

/-- C2 (counterexample): on a concrete landmark input with face scale `2`,
the scale-normalized record returned by `calculateAllMetrics` violates
`aspectRatio = width / (openness + ε)` over its own stored fields, because
normalization divides `width` and `openness` by the scale but leaves
`aspectRatio` unchanged. -/
theorem normalized_aspectRatio_counterexample :
    (calculateAllMetrics (some demoMouth) none none (some demoFace) true).aspectRatio ≠
      (calculateAllMetrics (some demoMouth) none none (some demoFace) true).width /
        ((calculateAllMetrics (some demoMouth) none none (some demoFace) true).openness +
          0.0001) := by
  have hAR : (calculateAllMetrics (some demoMouth) none none (some demoFace) true).aspectRatio =
      calculateAspectRatio (some demoMouth) := rfl
  have hW : (calculateAllMetrics (some demoMouth) none none (some demoFace) true).width =
      calculateWidth (some demoMouth) /
        (if 0 < calculateFaceScale (some demoFace) then calculateFaceScale (some demoFace)
          else 1) := rfl
  have hO : (calculateAllMetrics (some demoMouth) none none (some demoFace) true).openness =
      calculateOpenness (some demoMouth) /
        (if 0 < calculateFaceScale (some demoFace) then calculateFaceScale (some demoFace)
          else 1) := rfl
  have hARv : calculateAspectRatio (some demoMouth) = (2 / 10) / (1 / 10 + 0.0001) := by
    unfold calculateAspectRatio
    rw [demoMouth_width, demoMouth_openness]
  rw [hAR, hW, hO, hARv, demoMouth_width, demoMouth_openness, demoFace_scale,
    if_pos (by norm_num : (0 : ℝ) < 2)]
  norm_num

/-- C1: with numeric openness/width/aspectRatio, openness at most `0.018`
and no baseline, `classify` returns vowel `closed` with confidence exactly
`1` and the probability map `closed ↦ 1`, the vowels `↦ 0` — for arbitrary
width and aspect ratio — and leaves the classifier state (vowel history and
probability EMA) untouched, i.e. the scoring stage is bypassed. -/
theorem classify_closed_gate (st : VCState) (m : VMetrics) (tf : Option TemporalFeatures)
    (o w r : ℝ) (ho : m.openness = some o) (hw : m.width = some w)
    (hr : m.aspectRatio = some r) (hle : o ≤ 0.018) (hb : st.baseline = none) :
    (classify st (some m) tf).2.1.vowel = some Vowel.closed ∧
    (classify st (some m) tf).2.1.confidence = 1 ∧
    (classify st (some m) tf).2.1.probabilities =
      { closed := 1, a := 0, i := 0, u := 0, e := 0, o := 0 } ∧
    (classify st (some m) tf).1 = st := by
  have hreq : hasRequiredMetrics (some m) = true := by
    simp [hasRequiredMetrics, ho, hw, hr]
  have hclosed : isMouthClosed st m = true := by
    unfold isMouthClosed
    dsimp only
    rw [ho]
    simp only [Option.getD_some]
    rw [if_pos hle]
  unfold classify
  simp [hreq, hclosed, createResult]

/-- Witness for `classify_closed_gate`: a fresh classifier on a record with
openness `0.01`, width `5` and aspect ratio `9`. -/
theorem classify_closed_gate_witness :
    (classify (⟨none, false, 7, 0.6, [], none⟩ : VCState)
      (some (⟨some 0.01, some 5, some 9, none, none, none, none, none, none, none,
        none⟩ : VMetrics)) none).2.1.vowel = some Vowel.closed ∧
    (classify (⟨none, false, 7, 0.6, [], none⟩ : VCState)
      (some (⟨some 0.01, some 5, some 9, none, none, none, none, none, none, none,
        none⟩ : VMetrics)) none).2.1.confidence = 1 := by
  have h := classify_closed_gate (⟨none, false, 7, 0.6, [], none⟩ : VCState)
    (⟨some 0.01, some 5, some 9, none, none, none, none, none, none, none, none⟩ : VMetrics)
    none 0.01 5 9 rfl rfl rfl (by norm_num) rfl
  exact ⟨h.1, h.2.1⟩

/-- C6: when the metrics argument is absent or lacks a numeric openness,
width or aspect ratio, `classify` raises no error (it is a total function)
and returns the empty result: no vowel, zero confidence, the all-zero
probability map over `a, i, u, e, o, closed`. -/
theorem classify_input_gate (st : VCState) (metrics : Option VMetrics)
    (tf : Option TemporalFeatures) (h : hasRequiredMetrics metrics = false) :
    (classify st metrics tf).2.1.vowel = none ∧
    (classify st metrics tf).2.1.confidence = 0 ∧
    (classify st metrics tf).2.1.probabilities =
      { a := 0, i := 0, u := 0, e := 0, o := 0, closed := 0 } ∧
    (classify st metrics tf).2.1 = createEmptyResult := by
  cases metrics with
  | none => simp [classify, createEmptyResult, emptyProbs]
  | some m =>
    unfold classify
    simp [h, createEmptyResult, emptyProbs]

/-- Witness for `classify_input_gate`: a `null` metrics argument. -/
theorem classify_input_gate_witness :
    (classify (⟨none, true, 7, 0.6, [], none⟩ : VCState) none none).2.1.vowel = none ∧
    (classify (⟨none, true, 7, 0.6, [], none⟩ : VCState) none none).2.1.confidence = 0 :=
  ⟨(classify_input_gate (⟨none, true, 7, 0.6, [], none⟩ : VCState) none none rfl).1,
    (classify_input_gate (⟨none, true, 7, 0.6, [], none⟩ : VCState) none none rfl).2.1⟩

/-- C7 (counterexample): with a registered `onVowelDetected` callback, a
`classify` call that fails the input gate performs zero callback
invocations, not one — `_createEmptyResult` never fires the callback. -/
theorem callback_on_empty_counterexample :
    ¬ ((classify (⟨none, true, 7, 0.6, [], none⟩ : VCState) none none).2.2 = 1) := by
  simp [classify]

/-- C7 (amended): with a registered callback, `classify` fires it exactly
once when it produces a result through `_createResult` (the closed result
and every scored result, including those gated to no vowel — exactly the
results carrying a metrics snapshot), and does not fire it when it returns
the empty result (input-gate or minimum-score-gate failure). -/
theorem callback_iff_nonempty_result (st : VCState) (metrics : Option VMetrics)
    (tf : Option TemporalFeatures) (hcb : st.hasCallback = true) :
    (classify st metrics tf).2.2 =
      (if ((classify st metrics tf).2.1).metricsEcho.isSome then 1 else 0) := by
  cases metrics with
  | none => simp [classify, createEmptyResult]
  | some m =>
    unfold classify
    by_cases h1 : hasRequiredMetrics (some m) = false
    · simp [h1, createEmptyResult]
    · by_cases h2 : isMouthClosed st m = true
      · simp [h1, h2, createResult, hcb]
      · by_cases h3 : (selectTopVowel (calculateScores m)).2 < getMinScoreThreshold m
        · simp [h1, h2, h3, createEmptyResult]
        · simp [h1, h2, h3, createResult, hcb]

/-- Witness for `callback_iff_nonempty_result`: the empty-result case at a
registered callback. -/
theorem callback_iff_nonempty_result_witness :
    (classify (⟨none, true, 7, 0.6, [], none⟩ : VCState) none none).2.2 =
      (if ((classify (⟨none, true, 7, 0.6, [], none⟩ : VCState)
        none none).2.1).metricsEcho.isSome then 1 else 0) :=
  callback_iff_nonempty_result (⟨none, true, 7, 0.6, [], none⟩ : VCState) none none rfl
